import Mathlib

/-!
# cluster-api-provider-existinginfra: upgrade plans, resources and reconciler

A shallow embedding of `pkg/plan/recipe/upgrade_plans.go`, of
`pkg/plan/resource/os.go` and `pkg/plan/resource/run.go`, and of the
reconciler of `controllers/cluster.weave.works`, together with the properties
of them that are stated in the specification.
-/

namespace ExistingInfra

/-! ## Errors and the Runner -/

/-- Modelled from the spec: `plan.RunError` is not among the sources; it is the
typed "non-zero exit" error kind carrying the integer exit code. -/
structure RunError where
  ExitCode : Int
deriving DecidableEq, Repr

/-- A non-nil value of Go's `error` interface. `runError p` is a value whose
dynamic type is `*plan.RunError`; `p = none` is the nil pointer of that type,
which as an interface value is still different from `nil`. `other` is every
other error, identified by its message. `wrap cause message` is what
`errors.Wrap(cause, message)` of `github.com/pkg/errors` returns.
`statusError reason` is an error of the Kubernetes API with that status
reason, such as `NotFound` or `Conflict`. -/
inductive Error where
  | runError (p : Option RunError)
  | other (msg : String)
  | wrap (cause : Error) (message : String)
  | statusError (reason : String)
deriving DecidableEq, Repr

/-- Modelled from the spec: what `Runner.RunCommand` may fail with, either the
typed non-zero exit carrying the exit code or an opaque transport/runtime
error. -/
inductive RunnerError where
  | exit (e : RunError)
  | transport (msg : String)
deriving DecidableEq, Repr

/-- The `error` interface value a Runner failure is seen as by the caller. -/
def RunnerError.toError : RunnerError → Error
  | .exit e => .runError (some e)
  | .transport msg => .other msg

/-- Modelled from the spec: `plan.Runner` is not among the sources. A Runner
answers a command string with an output and an optional error; its answer may
depend on the commands it has been given before (oldest first). -/
abbrev Runner := List String → String → String × Option RunnerError

/-- One call `r.RunCommand(ctx, cmd, nil)`: the answer and the extended log of
issued commands. -/
def RunCommand (r : Runner) (log : List String) (cmd : String) :
    (String × Option RunnerError) × List String :=
  (r log cmd, log ++ [cmd])

/-! ## Resources, Builder and Plan -/

/-- The resource variants `BuildUpgradePlan` registers. `Run` carries the four
fields of `resource.Run` (`Output` is the content of the slot the pointer
designates, `none` for a nil pointer); of `resource.RPM` and `resource.Deb`,
whose declarations are not among the sources, the fields the literals set. -/
inductive Resource where
  | Run (Script : String) (UndoScript : Option String)
      (UndoResource : Option Resource) (Output : Option String)
  | RPM (Name Version DisableExcludes : String)
  | Deb (Name Suffix : String)

/-- The literal `&resource.Run{Script: object.String(s)}`: every other field
has its zero value. -/
def Resource.script (s : String) : Resource := .Run s none none none

/-- A resource registered under a name, with the names given to `DependOn`. -/
structure Entry where
  name : String
  resource : Resource
  dependencies : List String

/-- Modelled from the spec: `plan.Builder` is not among the sources. It
accumulates named resources in insertion order and the errors met while doing
so. -/
structure Builder where
  entries : List Entry
  errors : List String

/-- Modelled from the spec: `plan.NewBuilder`, the empty Builder. -/
def NewBuilder : Builder := ⟨[], []⟩

/-- Modelled from the spec: `Builder.AddResource`; names are unique within a
Builder and a duplicate registration is an error. -/
def Builder.AddResource (b : Builder) (name : String) (rsc : Resource)
    (dependOn : List String) : Builder :=
  if b.entries.any (fun e => e.name == name) then
    { b with errors := b.errors ++ ["resource " ++ name ++ " already registered"] }
  else
    { b with entries := b.entries ++ [⟨name, rsc, dependOn⟩] }

/-- Modelled from the spec: `plan.Plan`, the validated resources in a
topological order with ties broken by insertion order. -/
structure Plan where
  nodes : List Entry

/-- The dependency names that resolve to no registered resource. -/
def unknownDependencies (es : List Entry) : List String :=
  (es.flatMap (fun e => e.dependencies)).filter (fun d => !(es.any (fun e => e.name == d)))

/-- The first pending entry, in insertion order, whose dependencies have all
been emitted. -/
def nextReady (done pending : List Entry) : Option Entry :=
  pending.find? (fun e => e.dependencies.all (fun d => done.any (fun x => x.name == d)))

/-- Topological sort with ties broken by insertion order; `none` when no
pending entry is ready, which is the case of a dependency cycle. -/
def topoSort : Nat → List Entry → List Entry → Option (List Entry)
  | _, done, [] => some done
  | 0, _, _ :: _ => none
  | fuel + 1, done, e :: es =>
    match nextReady done (e :: es) with
    | none => none
    | some x => topoSort fuel (done ++ [x]) ((e :: es).filter (fun y => y.name != x.name))

/-- Modelled from the spec: `Builder.Plan`; construction fails on a recorded
error, on a dependency that names no registered resource, and on a cycle. -/
def Builder.Plan (b : Builder) : Except String Plan :=
  if !b.errors.isEmpty then .error "invalid plan: registration errors"
  else if !(unknownDependencies b.entries).isEmpty then
    .error "invalid plan: unknown dependency"
  else
    match topoSort b.entries.length [] b.entries with
    | none => .error "invalid plan: dependency cycle"
    | some ns => .ok ⟨ns⟩

/-- The names of the plan's resources, in plan order. -/
def Plan.names (p : Plan) : List String := p.nodes.map (fun e => e.name)

/-- The declared dependencies of the resource registered under `name`. -/
def Plan.dependenciesOf (p : Plan) (name : String) : List String :=
  match p.nodes.find? (fun e => e.name == name) with
  | some e => e.dependencies
  | none => []

/-- The resource registered under `name`. -/
def Plan.resourceOf (p : Plan) (name : String) : Option Resource :=
  (p.nodes.find? (fun e => e.name == name)).map (fun e => e.resource)

/-- Whether `a` depends on `b` through a chain of at most `fuel` declared
dependencies. -/
def Plan.dependsOn (p : Plan) : Nat → String → String → Bool
  | 0, _, _ => false
  | fuel + 1, a, b => (p.dependenciesOf a).any (fun d => d == b || p.dependsOn fuel d b)

/-! ## Go library functions -/

namespace strings

/-- Whether `substr` occurs in `s` as a contiguous run, on character lists. -/
def containsChars : List Char → List Char → Bool
  | [], substr => substr.isEmpty
  | c :: cs, substr => substr.isPrefixOf (c :: cs) || containsChars cs substr

/-- Go's `strings.Contains(s, substr)`. -/
def Contains (s substr : String) : Bool := containsChars s.data substr.data

end strings

/-! ## pkg/utilities/version -/

namespace version

/-- A non-empty run of decimal digits read as a number. -/
def parseNat (cs : List Char) : Option Nat :=
  if cs.isEmpty || !cs.all Char.isDigit then none
  else some (cs.foldl (fun n c => 10 * n + (c.toNat - '0'.toNat)) 0)

/-- The pieces of a character list between dots. -/
def splitDots : List Char → List (List Char)
  | [] => [[]]
  | c :: cs =>
    if c = '.' then [] :: splitDots cs
    else
      match splitDots cs with
      | [] => [[c]]
      | p :: ps => (c :: p) :: ps

/-- A version `MAJOR.MINOR.PATCH` with an optional leading `v`. -/
def parseVersion (s : String) : Option (Nat × Nat × Nat) :=
  let cs := match s.data with
    | 'v' :: rest => rest
    | cs => cs
  match splitDots cs with
  | [a, b, c] =>
    match parseNat a, parseNat b, parseNat c with
    | some x, some y, some z => some (x, y, z)
    | _, _, _ => none
  | _ => none

/-- Modelled from the spec: `version.LessThan` is not among the sources; it is
the strict semantic-version less-than, here on `MAJOR.MINOR.PATCH` versions,
every other string being a comparison error. -/
def LessThan (a b : String) : Bool × Option Error :=
  match parseVersion a, parseVersion b with
  | some (x, y, z), some (x', y', z') =>
    (decide (x < x' ∨ (x = x' ∧ (y < y' ∨ (y = y' ∧ z < z')))), none)
  | _, _ => (false, some (.other "invalid version"))

end version

/-! ## pkg/plan/recipe/upgrade_plans.go -/

/-- Modelled from the spec: `resource.PkgType` is declared outside the sources.
The three constants the switches name are pairwise distinct (they are the case
constants of one switch); `other` is every value that is none of them. -/
inductive PkgType where
  | PkgTypeRPM
  | PkgTypeRHEL
  | PkgTypeDeb
  | other (tag : String)
deriving DecidableEq, Repr

export PkgType (PkgTypeRPM PkgTypeRHEL PkgTypeDeb)

/-- The Go type `NodeType`, an `int`. -/
abbrev NodeType := Int

def OriginalMaster : NodeType := 0
def SecondaryMaster : NodeType := 1
def Worker : NodeType := 2

/-- The first `switch pkgType`: the unlock, package and lock steps. -/
def addPackageSteps (b : Builder) (pkgType : PkgType) (k8sVersion : String) : Builder :=
  match pkgType with
  | .PkgTypeRPM | .PkgTypeRHEL =>
    ((((b.AddResource "upgrade:node-unlock-kubernetes"
          (.script "yum versionlock delete 'kube*' || true") []).AddResource
        "upgrade:node-kubelet" (.RPM "kubelet" k8sVersion "kubernetes")
          ["upgrade:node-unlock-kubernetes"]).AddResource
        "upgrade:node-kubectl" (.RPM "kubectl" k8sVersion "kubernetes")
          ["upgrade:node-kubelet"]).AddResource
        "upgrade:node-install-kubeadm" (.RPM "kubeadm" k8sVersion "kubernetes")
          ["upgrade:node-kubectl"]).AddResource
        "upgrade:node-lock-kubernetes" (.script "yum versionlock add 'kube*' || true")
          ["upgrade:node-install-kubeadm"]
  | .PkgTypeDeb =>
    ((((b.AddResource "upgrade:node-unlock-kubernetes"
          (.script "apt-mark unhold 'kube*' || true") []).AddResource
        "upgrade:node-kubelet" (.Deb "kubelet" ("=" ++ k8sVersion ++ "-00"))
          ["upgrade:node-unlock-kubernetes"]).AddResource
        "upgrade:node-kubectl" (.Deb "kubectl" ("=" ++ k8sVersion ++ "-00"))
          ["upgrade:node-kubelet"]).AddResource
        "upgrade:node-install-kubeadm" (.Deb "kubeadm" ("=" ++ k8sVersion ++ "-00"))
          ["upgrade:node-kubectl"]).AddResource
        "upgrade:node-lock-kubernetes" (.script "apt-mark hold 'kube*' || true")
          ["upgrade:node-install-kubeadm"]
  | .other _ => b

/-- The flag for secondary masters: set when the comparison with `v1.16.0`
returns no error and `true`. -/
def secondaryMasterUpgradeControlPlaneFlag
    (lessThan : String → String → Bool × Option Error) (k8sVersion : String) : String :=
  let (lt, err) := lessThan k8sVersion "v1.16.0"
  if err = none && lt then "experimental-control-plane" else ""

/-- The script of the role-specific step, when the node type is one of the
three cases of `switch ntype`. -/
def upgradeScript (lessThan : String → String → Bool × Option Error)
    (k8sVersion : String) (ntype : NodeType) : Option String :=
  if ntype = OriginalMaster then
    some ("kubeadm upgrade plan && kubeadm upgrade apply -y " ++ k8sVersion)
  else if ntype = SecondaryMaster then
    some ("kubeadm upgrade node " ++ secondaryMasterUpgradeControlPlaneFlag lessThan k8sVersion)
  else if ntype = Worker then
    some "kubeadm upgrade node phase kubelet-config"
  else none

/-- The `switch ntype`: the role-specific upgrade step. -/
def addUpgradeStep (b : Builder) (lessThan : String → String → Bool × Option Error)
    (k8sVersion : String) (ntype : NodeType) : Builder :=
  match upgradeScript lessThan k8sVersion ntype with
  | some s => b.AddResource "upgrade:node-kubeadm-upgrade" (.script s)
      ["upgrade:node-install-kubeadm"]
  | none => b

/-- The second `switch pkgType`: the restart step. -/
def addRestartStep (b : Builder) (pkgType : PkgType) : Builder :=
  match pkgType with
  | .PkgTypeRPM | .PkgTypeRHEL =>
    b.AddResource "upgrade:node-restart-kubelet" (.script "systemctl restart kubelet")
      ["upgrade:node-kubeadm-upgrade"]
  | .PkgTypeDeb =>
    b.AddResource "upgrade:node-restart-kubelet" (.script "systemctl restart kubelet")
      ["upgrade:node-kubeadm-upgrade"]
  | .other _ => b

/-- The Builder of `BuildUpgradePlan` just before `b.Plan()`; the version
comparison `version.LessThan` is the parameter `lessThan`. -/
def upgradeBuilder (lessThan : String → String → Bool × Option Error)
    (pkgType : PkgType) (k8sVersion : String) (ntype : NodeType) : Builder :=
  addRestartStep
    (addUpgradeStep (addPackageSteps NewBuilder pkgType k8sVersion) lessThan k8sVersion ntype)
    pkgType

/-- The sub-plan `BuildUpgradePlan` returns, or the error of `b.Plan()`. -/
def BuildUpgradePlan (lessThan : String → String → Bool × Option Error)
    (pkgType : PkgType) (k8sVersion : String) (ntype : NodeType) : Except String Plan :=
  (upgradeBuilder lessThan pkgType k8sVersion ntype).Plan

/-! ## pkg/plan/resource/os.go -/

/-- The digit `"0123456789abcdef"[n]`. -/
def lowerhex (n : Nat) : Char := "0123456789abcdef".data.getD n '0'

/-- Go's `strconv.IsPrint` on the ASCII and Latin-1 ranges; the Unicode tables
that decide the runes above U+00FF are outside the repository, and those runes
are taken as printable. -/
def isPrint (c : Char) : Bool :=
  let n := c.toNat
  if n < 0x80 then decide (0x20 ≤ n ∧ n < 0x7f)
  else if n ≤ 0xff then decide (0xa1 ≤ n ∧ n ≠ 0xad)
  else true

/-- The escape `strconv.Quote` writes for one rune. -/
def quoteRune (c : Char) : List Char :=
  let n := c.toNat
  let bs := Char.ofNat 92
  if n = 34 ∨ n = 92 then [bs, c]
  else if isPrint c then [c]
  else if n = 7 then [bs, 'a']
  else if n = 8 then [bs, 'b']
  else if n = 12 then [bs, 'f']
  else if n = 10 then [bs, 'n']
  else if n = 13 then [bs, 'r']
  else if n = 9 then [bs, 't']
  else if n = 11 then [bs, 'v']
  else if n < 0x20 ∨ n = 0x7f then [bs, 'x', lowerhex (n / 16), lowerhex (n % 16)]
  else if n < 0x10000 then
    [bs, 'u', lowerhex (n / 4096 % 16), lowerhex (n / 256 % 16), lowerhex (n / 16 % 16),
      lowerhex (n % 16)]
  else
    [bs, 'U', lowerhex (n / 268435456 % 16), lowerhex (n / 16777216 % 16),
      lowerhex (n / 1048576 % 16), lowerhex (n / 65536 % 16), lowerhex (n / 4096 % 16),
      lowerhex (n / 256 % 16), lowerhex (n / 16 % 16), lowerhex (n % 16)]

/-- The verb `%q` of `fmt.Sprintf` on a string: the double-quoted Go literal. -/
def goQuote (s : String) : String :=
  ⟨Char.ofNat 34 :: (s.data.flatMap quoteRune ++ [Char.ofNat 34])⟩

/-- The Go type `SELinuxStatus`, an `int` with three named values. -/
inductive SELinuxStatus where
  | SELinuxUnknown
  | SELinuxNotInstalled
  | SELinuxInstalled
deriving DecidableEq, Repr

/-- The Go type `SELinuxMode`, an `int` with four named values. -/
inductive SELinuxMode where
  | SELinuxModeUnknown
  | SELinuxEnforcing
  | SELinuxPermissive
  | SELinuxDisabled
deriving DecidableEq, Repr

export SELinuxStatus (SELinuxUnknown SELinuxNotInstalled SELinuxInstalled)
export SELinuxMode (SELinuxModeUnknown SELinuxEnforcing SELinuxPermissive SELinuxDisabled)

/-- The struct `OS`: two gathered facts and the Runner the probes go to. -/
structure OS where
  MachineID : String
  SystemUUID : String
  runner : Runner

/-- The command `HasCommand` issues for `cmd`. -/
def hasCommandProbe (cmd : String) : String :=
  "command -v -- " ++ goQuote cmd ++ " >/dev/null 2>&1"

/-- The method `OS.HasCommand`: result, error and the log of issued commands. -/
def OS.HasCommand (p : OS) (log : List String) (cmd : String) :
    (Bool × Option Error) × List String :=
  let (out, log1) := RunCommand p.runner log (hasCommandProbe cmd)
  match out.2 with
  | none => ((true, none), log1)
  | some (.exit _) => ((false, none), log1)
  | some err => ((false, some err.toError), log1)

/-- The method `OS.IsSELinuxMode`. In its last branch `err` is the variable of
type `*plan.RunError` bound by the type assertion: the asserted error when the
assertion held, the nil pointer when it did not. -/
def OS.IsSELinuxMode (p : OS) (log : List String) (mode : String) :
    (Bool × Option Error) × List String :=
  let (out, log1) := RunCommand p.runner log ("sestatus | grep 'Current mode' | grep " ++ mode)
  match out.2 with
  | none => ((true, none), log1)
  | some (.exit e) =>
    if e.ExitCode = 1 then ((false, none), log1)
    else ((false, some (.runError (some e))), log1)
  | some (.transport _) => ((false, some (.runError none)), log1)

/-- The method `OS.GetSELinuxStatus`. The `err` returned after the two mode
probes is the one bound by the `else if`, the error of the `enforcing` probe;
the `err` returned in the last branch is the variable bound by the type
assertion, as in `IsSELinuxMode`. -/
def OS.GetSELinuxStatus (p : OS) (log : List String) :
    (SELinuxStatus × SELinuxMode × Option Error) × List String :=
  let cmd := "selinuxenabled"
  let ((hasCmd, err), log1) := p.HasCommand log cmd
  if err ≠ none then ((SELinuxUnknown, SELinuxModeUnknown, err), log1)
  else if !hasCmd then ((SELinuxNotInstalled, SELinuxModeUnknown, none), log1)
  else
    let (out, log2) := RunCommand p.runner log1 cmd
    match out.2 with
    | none =>
      let ((permissive, perr), log3) := p.IsSELinuxMode log2 "permissive"
      if perr = none && permissive then ((SELinuxInstalled, SELinuxPermissive, none), log3)
      else
        let ((enforcing, eerr), log4) := p.IsSELinuxMode log3 "enforcing"
        if eerr = none && enforcing then ((SELinuxInstalled, SELinuxEnforcing, none), log4)
        else ((SELinuxInstalled, SELinuxModeUnknown, eerr), log4)
    | some (.exit e) =>
      if e.ExitCode = 1 then ((SELinuxInstalled, SELinuxDisabled, none), log2)
      else ((SELinuxInstalled, SELinuxModeUnknown, some (.runError (some e))), log2)
    | some (.transport _) =>
      ((SELinuxInstalled, SELinuxModeUnknown, some (.runError none)), log2)

/-- The method `OS.IsOSInContainerVM`. -/
def OS.IsOSInContainerVM (p : OS) (log : List String) : (Bool × Option Error) × List String :=
  let (out, log1) := RunCommand p.runner log "cat /proc/1/environ"
  ((strings.Contains out.1 "container=docker", out.2.map RunnerError.toError), log1)

/-- A Runner on which the `permissive` mode probe meets a transport error and
every other command succeeds with empty output. -/
def permissiveProbeLost : Runner := fun _ cmd =>
  if cmd = "sestatus | grep 'Current mode' | grep permissive" then
    ("", some (.transport "connection lost"))
  else ("", none)

/-- A Runner on which every command exits with the given code. -/
def alwaysExit (code : Int) : Runner := fun _ _ => ("", some (.exit ⟨code⟩))

/-- A Runner on which `selinuxenabled` exits with the given code and every
other command succeeds with empty output. -/
def selinuxenabledExit (code : Int) : Runner := fun _ cmd =>
  if cmd = "selinuxenabled" then ("", some (.exit ⟨code⟩)) else ("", none)

/-- A Runner on which every command succeeds with the given output. -/
def alwaysSucceed (output : String) : Runner := fun _ _ => (output, none)

/-! ## pkg/plan/resource/os.go: fact gathering -/

/-- Go's `unicode.IsSpace`: the Latin-1 spaces and the runes of the Unicode
property White_Space. -/
def isSpace (c : Char) : Bool :=
  let n := c.toNat
  decide (n = 9 ∨ n = 10 ∨ n = 11 ∨ n = 12 ∨ n = 13 ∨ n = 32 ∨ n = 0x85 ∨ n = 0xa0 ∨
    n = 0x1680 ∨ (0x2000 ≤ n ∧ n ≤ 0x200a) ∨ n = 0x2028 ∨ n = 0x2029 ∨ n = 0x202f ∨
    n = 0x205f ∨ n = 0x3000)

namespace strings

/-- Go's `strings.TrimSpace`: the string without its leading and trailing
white space. -/
def TrimSpace (s : String) : String :=
  ⟨((s.data.dropWhile isSpace).reverse.dropWhile isSpace).reverse⟩

/-- Go's `strings.Join(elems, sep)`. -/
def Join : List String → String → String
  | [], _ => ""
  | [a], _ => a
  | a :: b :: rest, sep => a ++ sep ++ Join (b :: rest) sep

end strings

/-- Modelled from the spec: `plan.State` is not among the sources; it is a
comparable structural value, here the named string fields of a resource. -/
abbrev State := List (String × String)

/-- Modelled from the spec: `plan.EmptyState`, the zero value. -/
def EmptyState : State := []

/-- Modelled from the spec: `plan.Diff` is not among the sources; it is the
result of comparing two States. -/
structure Diff where
  previous : State
  current : State
deriving DecidableEq, Repr

/-- Modelled from the spec: `plan.EmptyDiff()`, the zero value. -/
def EmptyDiff : Diff := ⟨EmptyState, EmptyState⟩

/-- The struct `factGatheringParams`. -/
structure factGatheringParams where
  paramName : String
  readFileCmd : String
  cmdErr : String
  blankErr : String
deriving DecidableEq, Repr

/-- The function `readFileCommand(fnames...)`. -/
def readFileCommand (fnames : List String) : String :=
  strings.Join (fnames.map (fun fname => "cat " ++ fname)) " 2>/dev/null || " ++ " 2>/dev/null"

/-- The function `newFactGatheringParams(pname, fnames...)`. -/
def newFactGatheringParams (pname : String) (fnames : List String) : factGatheringParams :=
  { paramName := pname
    readFileCmd := readFileCommand fnames
    cmdErr := "Could not get " ++ pname
    blankErr := pname ++ " is blank" }

def machineIDParams : factGatheringParams :=
  newFactGatheringParams "MachineID" ["/etc/machine-id", "/var/lib/dbus/machine-id"]

def sysUUIDParams : factGatheringParams :=
  newFactGatheringParams "SystemUUID" ["/sys/class/dmi/id/product_uuid", "/etc/machine-id"]

/-- The call `reflections.SetField(p, name, value)` on `*OS` with a string
value: the two exported string fields are set, the unexported `runner` cannot
be set, and any other name is no field. -/
def OS.SetField (p : OS) (name value : String) : OS × Option Error :=
  if name = "MachineID" then ({ p with MachineID := value }, none)
  else if name = "SystemUUID" then ({ p with SystemUUID := value }, none)
  else if name = "runner" then (p, some (.other ("Cannot set " ++ name ++ " field value")))
  else (p, some (.other ("No such field: " ++ name ++ " in obj")))

/-- Modelled from the spec: `ToState` is not among the sources; the State of
an `OS` is its two tagged fields. -/
def OS.State (p : OS) : ExistingInfra.State :=
  [("MachineID", p.MachineID), ("SystemUUID", p.SystemUUID)]

/-- The method `OS.getValueFromFileContents`: the `OS` after the call, the
error, and the log of issued commands. -/
def OS.getValueFromFileContents (p : OS) (fgparams : factGatheringParams) (r : Runner)
    (log : List String) : (OS × Option Error) × List String :=
  let cmd := fgparams.readFileCmd
  let (out, log1) := RunCommand r log cmd
  match out.2 with
  | some _ => ((p, some (.other fgparams.cmdErr)), log1)
  | none =>
    let param := strings.TrimSpace out.1
    if param.length = 0 then ((p, some (.other fgparams.blankErr)), log1)
    else (p.SetField fgparams.paramName param, log1)

/-- The Go type `GatherFactFunc`. -/
abbrev GatherFactFunc := OS → Runner → List String → (OS × Option Error) × List String

def getMachineID : GatherFactFunc := fun p r log =>
  p.getValueFromFileContents machineIDParams r log

def getSystemUUID : GatherFactFunc := fun p r log =>
  p.getValueFromFileContents sysUUIDParams r log

/-- The package variable `gatherFuncs`. -/
def gatherFuncs : List GatherFactFunc := [getMachineID, getSystemUUID]

/-- The loop of `gatherFacts` over the remaining functions: it stops at the
first error. -/
def gatherLoop : List GatherFactFunc → GatherFactFunc
  | [], p, _, log => ((p, none), log)
  | f :: fs, p, r, log =>
    match f p r log with
    | ((p1, some err), log1) => ((p1, some err), log1)
    | ((p1, none), log1) => gatherLoop fs p1 r log1

/-- The method `OS.gatherFacts`. -/
def OS.gatherFacts (p : OS) (r : Runner) (log : List String) :
    (OS × Option Error) × List String :=
  gatherLoop gatherFuncs p r log

/-- The method `OS.query`. -/
def OS.query (p : OS) (r : Runner) (log : List String) : (OS × Option Error) × List String :=
  p.gatherFacts r log

/-- The method `OS.QueryState`: the `OS` after the call, the returned State
and error, and the log of issued commands. -/
def OS.QueryState (p : OS) (r : Runner) (log : List String) :
    (OS × ExistingInfra.State × Option Error) × List String :=
  match p.query r log with
  | ((p1, some err), log1) => ((p1, EmptyState, some err), log1)
  | ((p1, none), log1) => ((p1, p1.State, none), log1)

/-- The method `OS.Apply`: the `OS` after the call, `changed`, the error, and
the log of issued commands. -/
def OS.Apply (p : OS) (r : Runner) (log : List String) (_ : Diff) :
    (OS × Bool × Option Error) × List String :=
  match p.query r log with
  | ((p1, some err), log1) => ((p1, false, some err), log1)
  | ((p1, none), log1) => ((p1, false, none), log1)

/-- A Runner that answers the MachineID read command with the given output
and fails every other command with a transport error. -/
def machineIDOnly (output : String) : Runner := fun _ cmd =>
  if cmd = "cat /etc/machine-id 2>/dev/null || cat /var/lib/dbus/machine-id 2>/dev/null" then
    (output, none)
  else ("", some (.transport "unreachable"))

/-! ## pkg/plan/resource/run.go -/

/-- The method `Apply` of a resource: for `Run` it is `Run.Apply`, which runs
the script, stores the output in the slot when there is one, and wraps the
Runner's error around the output; the package variants, whose sources are not
given, are the parameter `pkgApply`. The result is the resource after the
call, `changed`, the error, and the log of issued commands. -/
def Resource.Apply
    (pkgApply : Resource → Runner → List String → Diff →
      (Resource × Bool × Option Error) × List String) :
    Resource → Runner → List String → Diff → (Resource × Bool × Option Error) × List String
  | .Run script undoScript undoResource output, runner, log, _ =>
    let (out, log1) := RunCommand runner log script
    let output1 := match output with
      | some _ => some out.1
      | none => none
    match out.2 with
    | some err =>
      ((.Run script undoScript undoResource output1, false,
        some (.wrap err.toError out.1)), log1)
    | none => ((.Run script undoScript undoResource output1, true, none), log1)
  | rsc, runner, log, diff => pkgApply rsc runner log diff

/-- The method `Undo` of a resource: for `Run` it is `Run.Undo`; the package
variants, whose sources are not given, are the parameter `pkgUndo`. The result
is the error and the log of issued commands. -/
def Resource.Undo
    (pkgUndo : Resource → Runner → List String → State → Option Error × List String) :
    Resource → Runner → List String → State → Option Error × List String
  | .Run _ undoScript undoResource _, runner, log, _ =>
    match undoScript with
    | none =>
      match undoResource with
      | none => (none, log)
      | some u => Resource.Undo pkgUndo u runner log EmptyState
    | some s =>
      let (out, log1) := RunCommand runner log s
      (out.2.map RunnerError.toError, log1)
  | rsc, runner, log, current => pkgUndo rsc runner log current

/-- A package `Apply` that does nothing, for concrete runs. -/
def noPkgApply : Resource → Runner → List String → Diff →
    (Resource × Bool × Option Error) × List String :=
  fun rsc _ log _ => ((rsc, false, none), log)

/-- A package `Undo` that records the State it is given in the log and returns
no error, for concrete runs. -/
def recordingPkgUndo : Resource → Runner → List String → State → Option Error × List String :=
  fun _ _ log current => (none, log ++ ["undo with " ++ toString current.length ++ " fields"])

/-! ## controllers/cluster.weave.works/existinginfracluster_controller.go -/

def LocalController : String := "wks.weave.works/local-controller"
def Creating : String := "wks.weave.works/is-creating"

/-- The lookup `m[key]` with its `found` result, on a Go map that is nil
(`none`) or holds the listed pairs. -/
def mapLookup (m : Option (List (String × String))) (key : String) : Option String :=
  match m with
  | none => none
  | some l => l.lookup key

/-- The assignment `m[key] = value` on a non-nil Go map. -/
def mapSet (l : List (String × String)) (key value : String) : List (String × String) :=
  if l.any (fun kv => kv.1 == key) then
    l.map (fun kv => if kv.1 == key then (key, value) else kv)
  else l ++ [(key, value)]

/-- The fields of `ExistingInfraCluster` the reconciler reads or writes:
`Deleting` is `!DeletionTimestamp.IsZero()` and `Ready` is `Status.Ready`. -/
structure ExistingInfraCluster where
  Name : String
  Annotations : Option (List (String × String))
  Deleting : Bool
  Ready : Bool
deriving DecidableEq, Repr

/-- The fields of the owning `Cluster` the reconciler reads: `Paused` is
`Spec.Paused`. -/
structure Cluster where
  Name : String
  Paused : Bool
deriving DecidableEq, Repr

/-- The type `client.ObjectKey`, a namespaced name. -/
structure ObjectKey where
  Namespace : String
  Name : String
deriving DecidableEq, Repr

/-- What the reconciler asks of its collaborators, in the order asked. -/
inductive Step where
  | Get (key : ObjectKey)
  | Update (obj : ExistingInfraCluster)
  | setupGitDir (eic : ExistingInfraCluster)
  | setupInitialWorkloadCluster (eic : ExistingInfraCluster)
  | GetOwnerCluster (eic : ExistingInfraCluster)
  | NewHelper (eic : ExistingInfraCluster)
  | Patch (eic : ExistingInfraCluster)
  | recordEvent (eventType reason message : String)
deriving DecidableEq, Repr

/-- The external collaborators of the reconciler: the API client, the lookup
of the owning Cluster and the patch helper. Each answer may depend on the steps
taken before. `Get` gives the object read and the error. -/
structure Env where
  Get : List Step → ObjectKey → ExistingInfraCluster × Option Error
  Update : List Step → ExistingInfraCluster → Option Error
  GetOwnerCluster : List Step → ExistingInfraCluster → Option Cluster × Option Error
  NewHelper : List Step → ExistingInfraCluster → Option Error
  Patch : List Step → ExistingInfraCluster → Option Error

/-- How a call ends: it returns a value or it panics. -/
inductive Outcome (α : Type) where
  | returned (a : α)
  | panicked (reason : String)
deriving DecidableEq, Repr

/-- The function `apierrs.IsNotFound`. -/
def IsNotFound (err : Error) : Bool := err == .statusError "NotFound"

/-- The function `apierrs.IsConflict`. -/
def IsConflict (err : Error) : Bool := err == .statusError "Conflict"

/-- The function `util.IsPaused` of cluster-api: the Cluster is paused or the
object carries the paused annotation. -/
def IsPaused (cluster : Cluster) (eic : ExistingInfraCluster) : Bool :=
  cluster.Paused || (mapLookup eic.Annotations "cluster.x-k8s.io/paused").isSome

/-- One run of the function given to `retry.RetryOnConflict` in
`modifyCluster`: read the object, run the updater on the caller's object and
the object read, write the object read. -/
def modifyAttempt (env : Env) (log : List Step) (eic : ExistingInfraCluster)
    (updater : ExistingInfraCluster → ExistingInfraCluster →
      Outcome (ExistingInfraCluster × ExistingInfraCluster)) :
    (ExistingInfraCluster × Outcome (Option Error)) × List Step :=
  let (result, getErr) := env.Get log ⟨"", eic.Name⟩
  let log1 := log ++ [.Get ⟨"", eic.Name⟩]
  match getErr with
  | some err => ((eic, .returned (some err)), log1)
  | none =>
    match updater eic result with
    | .panicked reason => ((eic, .panicked reason), log1)
    | .returned (eic1, result1) =>
      ((eic1, .returned (env.Update log1 result1)), log1 ++ [.Update result1])

/-- The function `retry.RetryOnConflict` around `modifyAttempt`: at most
`steps` attempts, one more after each conflict, the last conflict being the
error when the attempts are used up. -/
def retryOnConflict (env : Env)
    (updater : ExistingInfraCluster → ExistingInfraCluster →
      Outcome (ExistingInfraCluster × ExistingInfraCluster)) :
    Nat → Option Error → List Step → ExistingInfraCluster →
      (ExistingInfraCluster × Outcome (Option Error)) × List Step
  | 0, lastErr, log, eic => ((eic, .returned lastErr), log)
  | steps + 1, _, log, eic =>
    match modifyAttempt env log eic updater with
    | ((eic1, .panicked reason), log1) => ((eic1, .panicked reason), log1)
    | ((eic1, .returned none), log1) => ((eic1, .returned none), log1)
    | ((eic1, .returned (some err)), log1) =>
      if IsConflict err then retryOnConflict env updater steps (some err) log1 eic1
      else ((eic1, .returned (some err)), log1)

/-- The method `modifyCluster`, with the five attempts of
`retry.DefaultRetry`. The updater receives the caller's object next to the
object read, since the closure given by `setClusterAnnotation` refers to it. -/
def modifyCluster (env : Env) (log : List Step) (eic : ExistingInfraCluster)
    (updater : ExistingInfraCluster → ExistingInfraCluster →
      Outcome (ExistingInfraCluster × ExistingInfraCluster)) :
    (ExistingInfraCluster × Outcome (Option Error)) × List Step :=
  match retryOnConflict env updater 5 none log eic with
  | ((eic1, .panicked reason), log1) => ((eic1, .panicked reason), log1)
  | ((eic1, .returned (some retryErr)), log1) =>
    ((eic1, .returned (some (.wrap retryErr
      ("Could not mark cluster " ++ eic.Name ++ " as updated")))), log1)
  | ((eic1, .returned none), log1) => ((eic1, .returned none), log1)

/-- The closure `func(node) { eic.Annotations[key] = value }`: it assigns into
the map of the caller's object `eic`, which panics on a nil map, and leaves
the object read `node` as it is. -/
def annotationUpdater (key value : String) (eic node : ExistingInfraCluster) :
    Outcome (ExistingInfraCluster × ExistingInfraCluster) :=
  match eic.Annotations with
  | none => .panicked "assignment to entry in nil map"
  | some l => .returned ({ eic with Annotations := some (mapSet l key value) }, node)

/-- The method `setClusterAnnotation`: the caller's object after the call,
the outcome, and the steps taken. -/
def setClusterAnnotation (env : Env) (log : List Step) (eic : ExistingInfraCluster)
    (key value : String) : (ExistingInfraCluster × Outcome (Option Error)) × List Step :=
  match modifyCluster env log eic (annotationUpdater key value) with
  | ((eic1, .panicked reason), log1) => ((eic1, .panicked reason), log1)
  | ((eic1, .returned (some err)), log1) =>
    ((eic1, .returned (some (.wrap err
      ("Failed to set annotation: " ++ key ++ " for cluster: " ++ eic.Name)))), log1)
  | ((eic1, .returned none), log1) => ((eic1, .returned none), log1)

/-- The part of `Reconcile` after the patch helper is made: the deletion
branch or `Status.Ready = true`, then the deferred `Patch`, whose error is
returned when there is no other. -/
def reconcileWithHelper (env : Env) (log : List Step) (eic : ExistingInfraCluster)
    (cluster : Cluster) : (ExistingInfraCluster × Outcome (Option Error)) × List Step :=
  if eic.Deleting then
    let log1 := log ++ [.recordEvent "Normal" "Delete" ("Deleted cluster " ++ cluster.Name)]
    ((eic, .returned (some (.other "ClusterReconciler#Delete not implemented"))),
      log1 ++ [.Patch eic])
  else
    let eic1 := { eic with Ready := true }
    ((eic1, .returned (env.Patch log eic1)), log ++ [.Patch eic1])

/-- The part of `Reconcile` after the initialization block: the owning
Cluster, the paused check and the patch helper. -/
def reconcileOwned (env : Env) (log : List Step) (eic : ExistingInfraCluster) :
    (ExistingInfraCluster × Outcome (Option Error)) × List Step :=
  let (cluster, err) := env.GetOwnerCluster log eic
  let log1 := log ++ [.GetOwnerCluster eic]
  match err with
  | some e => ((eic, .returned (some e)), log1)
  | none =>
    match cluster with
    | none => ((eic, .returned none), log1)
    | some c =>
      if IsPaused c eic then ((eic, .returned none), log1)
      else
        match env.NewHelper log1 eic with
        | some e => ((eic, .returned (some e)), log1 ++ [.NewHelper eic])
        | none => reconcileWithHelper env (log1 ++ [.NewHelper eic]) eic c

/-- The method `Reconcile`: the object in memory at the end, the outcome, and
the steps taken. `setupGitDir` and `setupInitialWorkloadCluster` return nil. -/
def Reconcile (env : Env) (log : List Step) (req : ObjectKey) :
    (ExistingInfraCluster × Outcome (Option Error)) × List Step :=
  let (eic, err) := env.Get log req
  let log1 := log ++ [.Get req]
  match err with
  | some e =>
    if IsNotFound e then ((eic, .returned none), log1) else ((eic, .returned (some e)), log1)
  | none =>
    if (mapLookup eic.Annotations LocalController).isNone &&
        (mapLookup eic.Annotations Creating).isNone then
      match setClusterAnnotation env log1 eic Creating "true" with
      | ((eic1, .panicked reason), log2) => ((eic1, .panicked reason), log2)
      | ((eic1, .returned (some e)), log2) => ((eic1, .returned (some e)), log2)
      | ((eic1, .returned none), log2) =>
        reconcileOwned env (log2 ++ [.setupGitDir eic1, .setupInitialWorkloadCluster eic1]) eic1
    else reconcileOwned env log1 eic

/-- The object last written by an `Update`, with the `Ready` flag of the last
`Patch`, starting from `initial`. -/
def storedObject (initial : ExistingInfraCluster) (log : List Step) : ExistingInfraCluster :=
  log.foldl (fun cur step =>
    match step with
    | .Update obj => obj
    | .Patch obj => { cur with Ready := obj.Ready }
    | _ => cur) initial

/-- Collaborators over a store holding one object: every read gives the
stored object, every write succeeds, and the owning Cluster is `owner`. -/
def storeEnv (initial : ExistingInfraCluster) (owner : Option Cluster) : Env where
  Get := fun log _ => (storedObject initial log, none)
  Update := fun _ _ => none
  GetOwnerCluster := fun _ _ => (owner, none)
  NewHelper := fun _ _ => none
  Patch := fun _ _ => none

/-- A stored object without the creation marker. -/
def applied : ExistingInfraCluster :=
  { Name := "cluster-1"
    Annotations := some [("kubectl.kubernetes.io/last-applied-configuration", "applied")]
    Deleting := false
    Ready := false }

/-- The object `applied` with the creation marker added to its annotations. -/
def appliedMarked : ExistingInfraCluster :=
  { Name := "cluster-1"
    Annotations := some [("kubectl.kubernetes.io/last-applied-configuration", "applied"),
      ("wks.weave.works/is-creating", "true")]
    Deleting := false
    Ready := false }

/-- How many times `setupInitialWorkloadCluster` occurs in a log. -/
def initializations (log : List Step) : Nat :=
  (log.filter (fun step =>
    match step with
    | .setupInitialWorkloadCluster _ => true
    | _ => false)).length

/-! ## Properties of the upgrade plan -/

theorem containsChars_iff (l sub : List Char) :
    strings.containsChars l sub = true ↔ sub <:+: l := by
  induction l with
  | nil => simp [strings.containsChars, List.isEmpty_iff]
  | cons c cs ih =>
    rw [strings.containsChars, Bool.or_eq_true, ih, List.isPrefixOf_iff_prefix,
      List.infix_cons_iff]

theorem Contains_iff (s substr : String) :
    strings.Contains s substr = true ↔ substr.data <:+: s.data :=
  containsChars_iff s.data substr.data

theorem upgradeScript_isSome (lessThan : String → String → Bool × Option Error)
    (k8sVersion : String) (ntype : NodeType)
    (hnt : ntype = OriginalMaster ∨ ntype = SecondaryMaster ∨ ntype = Worker) :
    ∃ s, upgradeScript lessThan k8sVersion ntype = some s := by
  rcases hnt with h | h | h <;> subst h
  · exact ⟨_, rfl⟩
  · exact ⟨_, rfl⟩
  · exact ⟨_, rfl⟩

theorem BuildUpgradePlan_of_script (lessThan : String → String → Bool × Option Error)
    (pkgType : PkgType) (k8sVersion : String) (ntype : NodeType) (s : String)
    (hpkg : pkgType = PkgTypeRPM ∨ pkgType = PkgTypeRHEL ∨ pkgType = PkgTypeDeb)
    (hs : upgradeScript lessThan k8sVersion ntype = some s) :
    BuildUpgradePlan lessThan pkgType k8sVersion ntype =
      .ok ⟨(addRestartStep ((addPackageSteps NewBuilder pkgType k8sVersion).AddResource
        "upgrade:node-kubeadm-upgrade" (.script s) ["upgrade:node-install-kubeadm"])
        pkgType).entries⟩ := by
  unfold BuildUpgradePlan upgradeBuilder addUpgradeStep
  rw [hs]
  rcases hpkg with h | h | h <;> subst h <;>
    simp [addRestartStep, addPackageSteps, NewBuilder, Builder.AddResource, Builder.Plan,
      unknownDependencies, topoSort, nextReady]

/-- C1 (as amended): for every supported package family, node type and version,
`BuildUpgradePlan` returns a plan of the seven steps in which kubelet depends
on unlock, kubectl on kubelet, kubeadm on kubectl, lock on kubeadm, the
role-specific upgrade command on the kubeadm install step, and restart-kubelet
on the upgrade command. -/
theorem BuildUpgradePlan_dependencies (lessThan : String → String → Bool × Option Error)
    (pkgType : PkgType) (k8sVersion : String) (ntype : NodeType)
    (hpkg : pkgType = PkgTypeRPM ∨ pkgType = PkgTypeRHEL ∨ pkgType = PkgTypeDeb)
    (hnt : ntype = OriginalMaster ∨ ntype = SecondaryMaster ∨ ntype = Worker) :
    ∃ p, BuildUpgradePlan lessThan pkgType k8sVersion ntype = .ok p ∧
      p.names = ["upgrade:node-unlock-kubernetes", "upgrade:node-kubelet",
        "upgrade:node-kubectl", "upgrade:node-install-kubeadm",
        "upgrade:node-lock-kubernetes", "upgrade:node-kubeadm-upgrade",
        "upgrade:node-restart-kubelet"] ∧
      p.dependenciesOf "upgrade:node-unlock-kubernetes" = [] ∧
      p.dependenciesOf "upgrade:node-kubelet" = ["upgrade:node-unlock-kubernetes"] ∧
      p.dependenciesOf "upgrade:node-kubectl" = ["upgrade:node-kubelet"] ∧
      p.dependenciesOf "upgrade:node-install-kubeadm" = ["upgrade:node-kubectl"] ∧
      p.dependenciesOf "upgrade:node-lock-kubernetes" = ["upgrade:node-install-kubeadm"] ∧
      p.dependenciesOf "upgrade:node-kubeadm-upgrade" = ["upgrade:node-install-kubeadm"] ∧
      p.dependenciesOf "upgrade:node-restart-kubelet" = ["upgrade:node-kubeadm-upgrade"] := by
  obtain ⟨s, hs⟩ := upgradeScript_isSome lessThan k8sVersion ntype hnt
  refine ⟨_, BuildUpgradePlan_of_script lessThan pkgType k8sVersion ntype s hpkg hs, ?_⟩
  rcases hpkg with h | h | h <;> subst h <;>
    simp [addRestartStep, addPackageSteps, NewBuilder, Builder.AddResource, Plan.names,
      Plan.dependenciesOf]

/-- Witness of C1 (as amended): the RPM plan of an original master for
`v1.15.3`. -/
theorem BuildUpgradePlan_dependencies_witness :
    ∃ p, BuildUpgradePlan version.LessThan PkgTypeRPM "v1.15.3" OriginalMaster = .ok p ∧
      p.names = ["upgrade:node-unlock-kubernetes", "upgrade:node-kubelet",
        "upgrade:node-kubectl", "upgrade:node-install-kubeadm",
        "upgrade:node-lock-kubernetes", "upgrade:node-kubeadm-upgrade",
        "upgrade:node-restart-kubelet"] ∧
      p.dependenciesOf "upgrade:node-unlock-kubernetes" = [] ∧
      p.dependenciesOf "upgrade:node-kubelet" = ["upgrade:node-unlock-kubernetes"] ∧
      p.dependenciesOf "upgrade:node-kubectl" = ["upgrade:node-kubelet"] ∧
      p.dependenciesOf "upgrade:node-install-kubeadm" = ["upgrade:node-kubectl"] ∧
      p.dependenciesOf "upgrade:node-lock-kubernetes" = ["upgrade:node-install-kubeadm"] ∧
      p.dependenciesOf "upgrade:node-kubeadm-upgrade" = ["upgrade:node-install-kubeadm"] ∧
      p.dependenciesOf "upgrade:node-restart-kubelet" = ["upgrade:node-kubeadm-upgrade"] :=
  BuildUpgradePlan_dependencies version.LessThan PkgTypeRPM "v1.15.3" OriginalMaster
    (Or.inl rfl) (Or.inl rfl)

/-- C1 (counterexample): in the RPM plan of an original master for `v1.15.3`
the upgrade command does not depend on the lock step, neither directly nor
through any chain of dependencies. -/
theorem BuildUpgradePlan_upgrade_not_after_lock :
    ∃ p, BuildUpgradePlan version.LessThan PkgTypeRPM "v1.15.3" OriginalMaster = .ok p ∧
      "upgrade:node-lock-kubernetes" ∉ p.dependenciesOf "upgrade:node-kubeadm-upgrade" ∧
      p.dependsOn p.nodes.length "upgrade:node-kubeadm-upgrade"
        "upgrade:node-lock-kubernetes" = false := by
  refine ⟨_, BuildUpgradePlan_of_script version.LessThan PkgTypeRPM "v1.15.3" OriginalMaster
    _ (Or.inl rfl) rfl, ?_, ?_⟩
  · simp [addRestartStep, addPackageSteps, NewBuilder, Builder.AddResource,
      Plan.dependenciesOf]
  · simp [addRestartStep, addPackageSteps, NewBuilder, Builder.AddResource,
      Plan.dependenciesOf, Plan.dependsOn]

/-- C2: for RPM and for RHEL, an original master and every version `v`,
`BuildUpgradePlan` registers without error exactly seven resources, in this
order: the yum unlock command, RPM kubelet, kubectl and kubeadm at version `v`
with DisableExcludes `kubernetes`, the yum lock command, the command
`kubeadm upgrade plan && kubeadm upgrade apply -y v`, and the kubelet restart;
the plan it returns holds them in the same order. -/
theorem BuildUpgradePlan_rpm_originalMaster
    (lessThan : String → String → Bool × Option Error) (v : String) (pkgType : PkgType)
    (hpkg : pkgType = PkgTypeRPM ∨ pkgType = PkgTypeRHEL) :
    (upgradeBuilder lessThan pkgType v OriginalMaster).errors = [] ∧
    (upgradeBuilder lessThan pkgType v OriginalMaster).entries.map (fun e => e.resource) =
      [Resource.Run "yum versionlock delete 'kube*' || true" none none none,
       Resource.RPM "kubelet" v "kubernetes",
       Resource.RPM "kubectl" v "kubernetes",
       Resource.RPM "kubeadm" v "kubernetes",
       Resource.Run "yum versionlock add 'kube*' || true" none none none,
       Resource.Run ("kubeadm upgrade plan && kubeadm upgrade apply -y " ++ v) none none none,
       Resource.Run "systemctl restart kubelet" none none none] ∧
    ∃ p, BuildUpgradePlan lessThan pkgType v OriginalMaster = .ok p ∧
      p.nodes.map (fun e => e.resource) =
        (upgradeBuilder lessThan pkgType v OriginalMaster).entries.map (fun e => e.resource) := by
  have hs : upgradeScript lessThan v OriginalMaster =
      some ("kubeadm upgrade plan && kubeadm upgrade apply -y " ++ v) := rfl
  refine ⟨?_, ?_, _, BuildUpgradePlan_of_script lessThan pkgType v OriginalMaster _
    (by rcases hpkg with h | h <;> simp [h]) hs, ?_⟩
  · simp only [upgradeBuilder, addUpgradeStep, hs]
    rcases hpkg with h | h <;> subst h <;>
      simp [addRestartStep, addPackageSteps, NewBuilder, Builder.AddResource, Resource.script]
  · simp only [upgradeBuilder, addUpgradeStep, hs]
    rcases hpkg with h | h <;> subst h <;>
      simp [addRestartStep, addPackageSteps, NewBuilder, Builder.AddResource, Resource.script]
  · simp only [upgradeBuilder, addUpgradeStep, hs]

/-- Witness of C2: the RPM registration for version `v1.15.3`. -/
theorem BuildUpgradePlan_rpm_originalMaster_witness :
    (upgradeBuilder version.LessThan PkgTypeRPM "v1.15.3" OriginalMaster).entries.map
        (fun e => e.resource) =
      [Resource.Run "yum versionlock delete 'kube*' || true" none none none,
       Resource.RPM "kubelet" "v1.15.3" "kubernetes",
       Resource.RPM "kubectl" "v1.15.3" "kubernetes",
       Resource.RPM "kubeadm" "v1.15.3" "kubernetes",
       Resource.Run "yum versionlock add 'kube*' || true" none none none,
       Resource.Run "kubeadm upgrade plan && kubeadm upgrade apply -y v1.15.3" none none none,
       Resource.Run "systemctl restart kubelet" none none none] :=
  (BuildUpgradePlan_rpm_originalMaster version.LessThan "v1.15.3" PkgTypeRPM (Or.inl rfl)).2.1

/-- C3: for a secondary master, every supported package family and every
version `v`, the build succeeds whatever the comparison returns, and the
upgrade command is `kubeadm upgrade node ` followed by the flag
`experimental-control-plane` exactly when the comparison of `v` with `v1.16.0`
returns `true` without error; in every other case, a comparison error
included, nothing follows. -/
theorem BuildUpgradePlan_secondaryMaster (lessThan : String → String → Bool × Option Error)
    (pkgType : PkgType) (v : String)
    (hpkg : pkgType = PkgTypeRPM ∨ pkgType = PkgTypeRHEL ∨ pkgType = PkgTypeDeb) :
    ∃ p script, BuildUpgradePlan lessThan pkgType v SecondaryMaster = .ok p ∧
      p.resourceOf "upgrade:node-kubeadm-upgrade" = some (Resource.Run script none none none) ∧
      (lessThan v "v1.16.0" = (true, none) →
        script = "kubeadm upgrade node experimental-control-plane") ∧
      (lessThan v "v1.16.0" ≠ (true, none) → script = "kubeadm upgrade node ") ∧
      (strings.Contains script "experimental-control-plane" = true ↔
        lessThan v "v1.16.0" = (true, none)) := by
  have hs : upgradeScript lessThan v SecondaryMaster = some ("kubeadm upgrade node " ++
      secondaryMasterUpgradeControlPlaneFlag lessThan v) := rfl
  refine ⟨_, "kubeadm upgrade node " ++ secondaryMasterUpgradeControlPlaneFlag lessThan v,
    BuildUpgradePlan_of_script lessThan pkgType v SecondaryMaster _ hpkg hs, ?_, ?_⟩
  · rcases hpkg with h | h | h <;> subst h <;>
      simp [addRestartStep, addPackageSteps, NewBuilder, Builder.AddResource, Plan.resourceOf,
        Resource.script]
  · unfold secondaryMasterUpgradeControlPlaneFlag
    rcases hlt : lessThan v "v1.16.0" with ⟨lt, err⟩
    cases lt <;> cases err <;> simp <;> decide

/-- Witness of C3: with the semantic-version comparison, the RPM plan of a
secondary master carries the flag for `v1.15.3` and not for `v1.17.0`. -/
theorem BuildUpgradePlan_secondaryMaster_witness :
    (∃ p, BuildUpgradePlan version.LessThan PkgTypeRPM "v1.15.3" SecondaryMaster = .ok p ∧
      p.resourceOf "upgrade:node-kubeadm-upgrade" =
        some (Resource.Run "kubeadm upgrade node experimental-control-plane" none none none)) ∧
    (∃ p, BuildUpgradePlan version.LessThan PkgTypeRPM "v1.17.0" SecondaryMaster = .ok p ∧
      p.resourceOf "upgrade:node-kubeadm-upgrade" =
        some (Resource.Run "kubeadm upgrade node " none none none)) := by
  constructor
  · obtain ⟨p, script, hp, hr, h1, -, -⟩ :=
      BuildUpgradePlan_secondaryMaster version.LessThan PkgTypeRPM "v1.15.3" (Or.inl rfl)
    exact ⟨p, hp, by rw [hr, h1 (by decide)]⟩
  · obtain ⟨p, script, hp, hr, -, h2, -⟩ :=
      BuildUpgradePlan_secondaryMaster version.LessThan PkgTypeRPM "v1.17.0" (Or.inl rfl)
    exact ⟨p, hp, by rw [hr, h2 (by decide)]⟩

/-- C4: for a worker, every supported package family and every two versions,
the role-specific step is the command `kubeadm upgrade node phase
kubelet-config` for both; the command contains neither `upgrade apply` nor
`upgrade plan`, and it contains no version string that has a digit. -/
theorem BuildUpgradePlan_worker (lessThan lessThan2 : String → String → Bool × Option Error)
    (pkgType : PkgType) (v v2 : String)
    (hpkg : pkgType = PkgTypeRPM ∨ pkgType = PkgTypeRHEL ∨ pkgType = PkgTypeDeb) :
    ∃ p p2, BuildUpgradePlan lessThan pkgType v Worker = .ok p ∧
      BuildUpgradePlan lessThan2 pkgType v2 Worker = .ok p2 ∧
      p.resourceOf "upgrade:node-kubeadm-upgrade" =
        some (Resource.Run "kubeadm upgrade node phase kubelet-config" none none none) ∧
      p2.resourceOf "upgrade:node-kubeadm-upgrade" =
        p.resourceOf "upgrade:node-kubeadm-upgrade" ∧
      strings.Contains "kubeadm upgrade node phase kubelet-config" "upgrade apply" = false ∧
      strings.Contains "kubeadm upgrade node phase kubelet-config" "upgrade plan" = false ∧
      ((∃ c ∈ v.data, c.isDigit = true) →
        strings.Contains "kubeadm upgrade node phase kubelet-config" v = false) := by
  have hs : ∀ lt w, upgradeScript lt w Worker =
      some "kubeadm upgrade node phase kubelet-config" := fun _ _ => rfl
  have hr : ∀ w : String, Plan.resourceOf ⟨(addRestartStep ((addPackageSteps NewBuilder pkgType
      w).AddResource "upgrade:node-kubeadm-upgrade"
        (.script "kubeadm upgrade node phase kubelet-config") ["upgrade:node-install-kubeadm"])
        pkgType).entries⟩ "upgrade:node-kubeadm-upgrade" =
      some (Resource.Run "kubeadm upgrade node phase kubelet-config" none none none) := by
    intro w
    rcases hpkg with h | h | h <;> subst h <;>
      simp [addRestartStep, addPackageSteps, NewBuilder, Builder.AddResource, Plan.resourceOf,
        Resource.script]
  refine ⟨_, _, BuildUpgradePlan_of_script lessThan pkgType v Worker _ hpkg (hs _ _),
    BuildUpgradePlan_of_script lessThan2 pkgType v2 Worker _ hpkg (hs _ _),
    hr v, ?_, by decide, by decide, ?_⟩
  · rw [hr v, hr v2]
  · rintro ⟨c, hc, hd⟩
    rw [Bool.eq_false_iff]
    intro hcon
    have hinf := (Contains_iff _ _).1 hcon
    have hmem : c ∈ "kubeadm upgrade node phase kubelet-config".data := hinf.subset hc
    have hall : ∀ x ∈ "kubeadm upgrade node phase kubelet-config".data, x.isDigit = false := by
      decide
    rw [hall c hmem] at hd
    exact Bool.false_ne_true hd

/-- Witness of C4: the RPM plans of a worker for `v1.15.3` and `v1.17.0`. -/
theorem BuildUpgradePlan_worker_witness :
    ∃ p p2, BuildUpgradePlan version.LessThan PkgTypeRPM "v1.15.3" Worker = .ok p ∧
      BuildUpgradePlan version.LessThan PkgTypeRPM "v1.17.0" Worker = .ok p2 ∧
      p.resourceOf "upgrade:node-kubeadm-upgrade" =
        some (Resource.Run "kubeadm upgrade node phase kubelet-config" none none none) ∧
      p2.resourceOf "upgrade:node-kubeadm-upgrade" =
        p.resourceOf "upgrade:node-kubeadm-upgrade" ∧
      strings.Contains "kubeadm upgrade node phase kubelet-config" "v1.15.3" = false := by
  obtain ⟨p, p2, h1, h2, h3, h4, -, -, h7⟩ :=
    BuildUpgradePlan_worker version.LessThan version.LessThan PkgTypeRPM "v1.15.3" "v1.17.0"
      (Or.inl rfl)
  exact ⟨p, p2, h1, h2, h3, h4, h7 ⟨'1', by decide, by decide⟩⟩

/-! ## Properties of the OS probes -/

theorem hasCommandProbe_selinuxenabled :
    hasCommandProbe "selinuxenabled" = "command -v -- \"selinuxenabled\" >/dev/null 2>&1" := by
  decide

/-- C5: when the existence probe for `selinuxenabled` fails with a non-zero
exit, `GetSELinuxStatus` returns not installed, mode unknown and no error, and
the existence probe is the only command it issues. -/
theorem GetSELinuxStatus_notInstalled (p : OS) (log : List String) (out : String)
    (e : RunError)
    (h : p.runner log "command -v -- \"selinuxenabled\" >/dev/null 2>&1" =
      (out, some (.exit e))) :
    p.GetSELinuxStatus log =
      ((SELinuxNotInstalled, SELinuxModeUnknown, none),
        log ++ ["command -v -- \"selinuxenabled\" >/dev/null 2>&1"]) := by
  simp [OS.GetSELinuxStatus, OS.HasCommand, RunCommand, hasCommandProbe_selinuxenabled, h]

/-- Witness of C5: a Runner on which every command exits with code 127. -/
theorem GetSELinuxStatus_notInstalled_witness :
    (OS.mk "" "" (alwaysExit 127)).GetSELinuxStatus [] =
      ((SELinuxNotInstalled, SELinuxModeUnknown, none),
        ["command -v -- \"selinuxenabled\" >/dev/null 2>&1"]) :=
  GetSELinuxStatus_notInstalled (OS.mk "" "" (alwaysExit 127)) [] "" ⟨127⟩ rfl

/-- C6: when the existence probe succeeds and `selinuxenabled` fails with exit
code 1, `GetSELinuxStatus` returns installed, mode disabled and no error. -/
theorem GetSELinuxStatus_disabled (p : OS) (log : List String) (e : RunError)
    (h1 : (p.runner log "command -v -- \"selinuxenabled\" >/dev/null 2>&1").2 = none)
    (h2 : (p.runner (log ++ ["command -v -- \"selinuxenabled\" >/dev/null 2>&1"])
      "selinuxenabled").2 = some (.exit e))
    (he : e.ExitCode = 1) :
    p.GetSELinuxStatus log =
      ((SELinuxInstalled, SELinuxDisabled, none),
        log ++ ["command -v -- \"selinuxenabled\" >/dev/null 2>&1", "selinuxenabled"]) := by
  simp [OS.GetSELinuxStatus, OS.HasCommand, RunCommand, hasCommandProbe_selinuxenabled, h1, h2,
    he]

/-- Witness of C6: a Runner on which `selinuxenabled` exits with code 1. -/
theorem GetSELinuxStatus_disabled_witness :
    (OS.mk "" "" (selinuxenabledExit 1)).GetSELinuxStatus [] =
      ((SELinuxInstalled, SELinuxDisabled, none),
        ["command -v -- \"selinuxenabled\" >/dev/null 2>&1", "selinuxenabled"]) :=
  GetSELinuxStatus_disabled (OS.mk "" "" (selinuxenabledExit 1)) [] ⟨1⟩ rfl rfl rfl

/-- C7: when the existence probe and `selinuxenabled` both succeed, the status
is installed; the mode is permissive when the `permissive` probe succeeds,
enforcing when the `permissive` probe does not succeed and the `enforcing`
probe succeeds, and unknown when neither succeeds. -/
theorem GetSELinuxStatus_enabled (p : OS) (log : List String)
    (h1 : (p.runner log "command -v -- \"selinuxenabled\" >/dev/null 2>&1").2 = none)
    (h2 : (p.runner (log ++ ["command -v -- \"selinuxenabled\" >/dev/null 2>&1"])
      "selinuxenabled").2 = none) :
    (p.GetSELinuxStatus log).1.1 = SELinuxInstalled ∧
    ((p.runner (log ++ ["command -v -- \"selinuxenabled\" >/dev/null 2>&1", "selinuxenabled"])
        "sestatus | grep 'Current mode' | grep permissive").2 = none →
      (p.GetSELinuxStatus log).1 = (SELinuxInstalled, SELinuxPermissive, none)) ∧
    ((p.runner (log ++ ["command -v -- \"selinuxenabled\" >/dev/null 2>&1", "selinuxenabled"])
        "sestatus | grep 'Current mode' | grep permissive").2 ≠ none →
      (p.runner (log ++ ["command -v -- \"selinuxenabled\" >/dev/null 2>&1", "selinuxenabled",
        "sestatus | grep 'Current mode' | grep permissive"])
        "sestatus | grep 'Current mode' | grep enforcing").2 = none →
      (p.GetSELinuxStatus log).1 = (SELinuxInstalled, SELinuxEnforcing, none)) ∧
    ((p.runner (log ++ ["command -v -- \"selinuxenabled\" >/dev/null 2>&1", "selinuxenabled"])
        "sestatus | grep 'Current mode' | grep permissive").2 ≠ none →
      (p.runner (log ++ ["command -v -- \"selinuxenabled\" >/dev/null 2>&1", "selinuxenabled",
        "sestatus | grep 'Current mode' | grep permissive"])
        "sestatus | grep 'Current mode' | grep enforcing").2 ≠ none →
      (p.GetSELinuxStatus log).1.2.1 = SELinuxModeUnknown) := by
  have hperm : "sestatus | grep 'Current mode' | grep " ++ "permissive" =
      "sestatus | grep 'Current mode' | grep permissive" := by decide
  have henf : "sestatus | grep 'Current mode' | grep " ++ "enforcing" =
      "sestatus | grep 'Current mode' | grep enforcing" := by decide
  simp only [OS.GetSELinuxStatus, OS.HasCommand, OS.IsSELinuxMode, RunCommand,
    hasCommandProbe_selinuxenabled, h1, h2, hperm, henf, List.append_assoc, List.cons_append,
    List.nil_append]
  rcases hp : (p.runner (log ++ ["command -v -- \"selinuxenabled\" >/dev/null 2>&1",
      "selinuxenabled"]) "sestatus | grep 'Current mode' | grep permissive").2 with _ | ep
  · simp [hp]
  · rcases hn : (p.runner (log ++ ["command -v -- \"selinuxenabled\" >/dev/null 2>&1",
        "selinuxenabled", "sestatus | grep 'Current mode' | grep permissive"])
        "sestatus | grep 'Current mode' | grep enforcing").2 with _ | en
    · rcases ep with ⟨⟨c⟩⟩ | m
      · by_cases hc : c = 1 <;> simp [hp, hn, hc]
      · simp [hp, hn]
    · rcases ep with ⟨⟨c⟩⟩ | m <;> rcases en with ⟨⟨d⟩⟩ | m2
      · by_cases hc : c = 1 <;> by_cases hd : d = 1 <;> simp [hp, hn, hc, hd]
      · by_cases hc : c = 1 <;> simp [hp, hn, hc]
      · by_cases hd : d = 1 <;> simp [hp, hn, hd]
      · simp [hp, hn]

/-- Witness of C7: a Runner on which every command succeeds. -/
theorem GetSELinuxStatus_enabled_witness :
    ((OS.mk "" "" (alwaysSucceed "")).GetSELinuxStatus []).1 =
      (SELinuxInstalled, SELinuxPermissive, none) :=
  (GetSELinuxStatus_enabled (OS.mk "" "" (alwaysSucceed "")) [] rfl rfl).2.1 rfl

/-- C8 (the failing input): on a Runner whose `permissive` mode probe meets a
transport error while every other command succeeds, `GetSELinuxStatus` issues
that probe and still returns installed, enforcing and no error. -/
theorem GetSELinuxStatus_permissive_error_dropped :
    (permissiveProbeLost
        ["command -v -- \"selinuxenabled\" >/dev/null 2>&1", "selinuxenabled"]
        "sestatus | grep 'Current mode' | grep permissive").2 =
      some (.transport "connection lost") ∧
    (OS.mk "" "" permissiveProbeLost).GetSELinuxStatus [] =
      ((SELinuxInstalled, SELinuxEnforcing, none),
        ["command -v -- \"selinuxenabled\" >/dev/null 2>&1", "selinuxenabled",
          "sestatus | grep 'Current mode' | grep permissive",
          "sestatus | grep 'Current mode' | grep enforcing"]) := by
  decide

/-- C9 (counterexample): on a Runner whose every command exits with code 1,
`IsOSInContainerVM` returns an error; on a Runner whose commands succeed except
`selinuxenabled`, which exits with code 2, `GetSELinuxStatus` returns an
error. -/
theorem nonzero_exit_propagated :
    (∀ log cmd, ∃ e, ((alwaysExit 1) log cmd).2 = some (.exit e)) ∧
    ((OS.mk "" "" (alwaysExit 1)).IsOSInContainerVM []).1.2 =
      some (.runError (some ⟨1⟩)) ∧
    (∀ log cmd, ((selinuxenabledExit 2) log cmd).2 = none ∨
      ∃ e, ((selinuxenabledExit 2) log cmd).2 = some (.exit e)) ∧
    ((OS.mk "" "" (selinuxenabledExit 2)).GetSELinuxStatus []).1 =
      (SELinuxInstalled, SELinuxModeUnknown, some (.runError (some ⟨2⟩))) := by
  refine ⟨fun _ _ => ⟨_, rfl⟩, by decide, ?_, by decide⟩
  intro log cmd
  unfold selinuxenabledExit
  by_cases h : cmd = "selinuxenabled"
  · exact Or.inr ⟨_, by rw [if_pos h]⟩
  · exact Or.inl (by rw [if_neg h])

/-- C9 (as amended): on a Runner whose every answer is a success or a non-zero
exit, the exit code being 1 whenever `selinuxenabled` or one of the two mode
probes exits non-zero, `HasCommand` and `GetSELinuxStatus` return no error,
`HasCommand` reports through its result whether the probe succeeded, and the
status `GetSELinuxStatus` reports is not unknown; `IsOSInContainerVM` returns
the error of its probe unchanged, so it returns no error exactly when the probe
succeeds. -/
theorem nonzero_exit_reclassified (p : OS) (log : List String) (cmd : String)
    (h : ∀ l c, (p.runner l c).2 = none ∨ ∃ e, (p.runner l c).2 = some (.exit e))
    (hcode : ∀ l c e, c ∈ ["selinuxenabled", "sestatus | grep 'Current mode' | grep permissive",
      "sestatus | grep 'Current mode' | grep enforcing"] →
      (p.runner l c).2 = some (.exit e) → e.ExitCode = 1) :
    (p.HasCommand log cmd).1.2 = none ∧
    ((p.HasCommand log cmd).1.1 = true ↔ (p.runner log (hasCommandProbe cmd)).2 = none) ∧
    (p.GetSELinuxStatus log).1.2.2 = none ∧
    (p.GetSELinuxStatus log).1.1 ≠ SELinuxUnknown ∧
    (p.IsOSInContainerVM log).1.2 =
      (p.runner log "cat /proc/1/environ").2.map RunnerError.toError ∧
    ((p.IsOSInContainerVM log).1.2 = none ↔ (p.runner log "cat /proc/1/environ").2 = none) := by
  have hperm : "sestatus | grep 'Current mode' | grep " ++ "permissive" =
      "sestatus | grep 'Current mode' | grep permissive" := by decide
  have henf : "sestatus | grep 'Current mode' | grep " ++ "enforcing" =
      "sestatus | grep 'Current mode' | grep enforcing" := by decide
  have one : ∀ l c, c ∈ ["selinuxenabled", "sestatus | grep 'Current mode' | grep permissive",
      "sestatus | grep 'Current mode' | grep enforcing"] →
      (p.runner l c).2 = none ∨ (p.runner l c).2 = some (.exit ⟨1⟩) := by
    intro l c hc
    rcases h l c with h0 | ⟨⟨x⟩, hx⟩
    · exact Or.inl h0
    · have h1 := hcode l c ⟨x⟩ hc hx
      simp only at h1
      rw [h1] at hx
      exact Or.inr hx
  have hHas : (p.HasCommand log cmd).1.2 = none ∧
      ((p.HasCommand log cmd).1.1 = true ↔ (p.runner log (hasCommandProbe cmd)).2 = none) := by
    simp only [OS.HasCommand, RunCommand]
    rcases h log (hasCommandProbe cmd) with h0 | ⟨e, he⟩
    · simp [h0]
    · simp [he]
  have hG : (p.GetSELinuxStatus log).1.2.2 = none ∧
      (p.GetSELinuxStatus log).1.1 ≠ SELinuxUnknown := by
    simp only [OS.GetSELinuxStatus, OS.HasCommand, OS.IsSELinuxMode, RunCommand,
      hasCommandProbe_selinuxenabled, hperm, henf]
    rcases h log "command -v -- \"selinuxenabled\" >/dev/null 2>&1" with h0 | ⟨e, he⟩
    · rcases one (log ++ ["command -v -- \"selinuxenabled\" >/dev/null 2>&1"])
        "selinuxenabled" (by simp) with h1 | h1
      · rcases one (log ++ ["command -v -- \"selinuxenabled\" >/dev/null 2>&1",
          "selinuxenabled"]) "sestatus | grep 'Current mode' | grep permissive" (by simp)
          with h2 | h2
        · simp [h0, h1, h2]
        · rcases one (log ++ ["command -v -- \"selinuxenabled\" >/dev/null 2>&1",
            "selinuxenabled", "sestatus | grep 'Current mode' | grep permissive"])
            "sestatus | grep 'Current mode' | grep enforcing" (by simp) with h3 | h3
          · simp [h0, h1, h2, h3]
          · simp [h0, h1, h2, h3]
      · simp [h0, h1]
    · simp [he]
  refine ⟨hHas.1, hHas.2, hG.1, hG.2, ?_, ?_⟩
  · simp [OS.IsOSInContainerVM, RunCommand]
  · simp [OS.IsOSInContainerVM, RunCommand]

/-- Witness of C9 (as amended): a Runner on which every command exits with
code 1. -/
theorem nonzero_exit_reclassified_witness :
    ((OS.mk "" "" (alwaysExit 1)).HasCommand [] "selinuxenabled").1 = (false, none) ∧
    ((OS.mk "" "" (alwaysExit 1)).GetSELinuxStatus []).1.2.2 = none ∧
    ((OS.mk "" "" (alwaysExit 1)).IsOSInContainerVM []).1.2 ≠ none := by
  have h := nonzero_exit_reclassified (OS.mk "" "" (alwaysExit 1)) [] "selinuxenabled"
    (fun _ _ => Or.inr ⟨⟨1⟩, rfl⟩)
    (fun _ _ e _ he => by
      have h2 : e = ⟨1⟩ := by
        simp only [alwaysExit, Option.some.injEq, RunnerError.exit.injEq] at he
        exact he.symm
      rw [h2])
  exact ⟨by decide, h.2.2.1, by decide⟩

/-- C10: `HasCommand` issues the existence probe and nothing else, and
classifies its answer three ways: `(true, nil)` exactly when the Runner returns
no error, `(false, nil)` exactly when it returns a non-zero exit, and `false`
with the Runner's own error when it returns any other error. -/
theorem HasCommand_classification (p : OS) (log : List String) (cmd : String) :
    (p.HasCommand log cmd).2 = log ++ ["command -v -- " ++ goQuote cmd ++ " >/dev/null 2>&1"] ∧
    ((p.HasCommand log cmd).1 = (true, none) ↔
      (p.runner log ("command -v -- " ++ goQuote cmd ++ " >/dev/null 2>&1")).2 = none) ∧
    ((p.HasCommand log cmd).1 = (false, none) ↔
      ∃ e, (p.runner log ("command -v -- " ++ goQuote cmd ++ " >/dev/null 2>&1")).2 =
        some (.exit e)) ∧
    (∀ msg, (p.runner log ("command -v -- " ++ goQuote cmd ++ " >/dev/null 2>&1")).2 =
        some (.transport msg) →
      (p.HasCommand log cmd).1 = (false, some (.other msg))) := by
  simp only [OS.HasCommand, RunCommand, hasCommandProbe]
  rcases hr : (p.runner log ("command -v -- " ++ goQuote cmd ++ " >/dev/null 2>&1")).2
    with _ | e
  · simp
  · rcases e with e | m
    · simp
    · simp [RunnerError.toError]

/-! ## Properties of fact gathering -/

theorem length_eq_zero_iff (s : String) : s.length = 0 ↔ s = "" := by
  cases s with
  | mk l =>
    cases l with
    | nil => exact ⟨fun _ => rfl, fun _ => rfl⟩
    | cons c cs =>
      constructor
      · intro h
        simp [String.length] at h
      · intro h
        have := congrArg String.data h
        simp at this

theorem machineID_readFileCmd :
    machineIDParams.readFileCmd =
      "cat /etc/machine-id 2>/dev/null || cat /var/lib/dbus/machine-id 2>/dev/null" := by
  decide

theorem sysUUID_readFileCmd :
    sysUUIDParams.readFileCmd =
      "cat /sys/class/dmi/id/product_uuid 2>/dev/null || cat /etc/machine-id 2>/dev/null" := by
  decide

/-- C11: when the Runner answers the MachineID read command with no error and
an output whose trimmed form is not empty, `getMachineID` returns no error and
sets MachineID to the trimmed output, leaving the rest of the `OS` as it was;
the same holds for `getSystemUUID` with the SystemUUID read command. -/
theorem gathering_trims (p : OS) (r : Runner) (log : List String) (out : String) :
    (r log "cat /etc/machine-id 2>/dev/null || cat /var/lib/dbus/machine-id 2>/dev/null" =
        (out, none) → strings.TrimSpace out ≠ "" →
      getMachineID p r log =
        (({ p with MachineID := strings.TrimSpace out }, none),
          log ++ ["cat /etc/machine-id 2>/dev/null || cat /var/lib/dbus/machine-id 2>/dev/null"])) ∧
    (r log "cat /sys/class/dmi/id/product_uuid 2>/dev/null || cat /etc/machine-id 2>/dev/null" =
        (out, none) → strings.TrimSpace out ≠ "" →
      getSystemUUID p r log =
        (({ p with SystemUUID := strings.TrimSpace out }, none),
          log ++ ["cat /sys/class/dmi/id/product_uuid 2>/dev/null || cat /etc/machine-id 2>/dev/null"])) := by
  constructor
  · intro h hne
    have hl : ¬ (strings.TrimSpace out).length = 0 := fun h0 => hne ((length_eq_zero_iff _).1 h0)
    have hn : machineIDParams.paramName = "MachineID" := rfl
    simp [getMachineID, OS.getValueFromFileContents, RunCommand, machineID_readFileCmd, h, hl,
      hn, OS.SetField]
  · intro h hne
    have hl : ¬ (strings.TrimSpace out).length = 0 := fun h0 => hne ((length_eq_zero_iff _).1 h0)
    have hn : sysUUIDParams.paramName = "SystemUUID" := rfl
    simp [getSystemUUID, OS.getValueFromFileContents, RunCommand, sysUUID_readFileCmd, h, hl,
      hn, OS.SetField]

/-- Witness of C11: the output `abc123` followed by a newline gives the
MachineID `abc123`. -/
theorem gathering_trims_witness :
    (getMachineID (OS.mk "" "" (alwaysSucceed "")) (machineIDOnly "abc123\n") []).1.1.MachineID =
      "abc123" ∧
    (getMachineID (OS.mk "" "" (alwaysSucceed "")) (machineIDOnly "abc123\n") []).1.2 = none := by
  have h := (gathering_trims (OS.mk "" "" (alwaysSucceed "")) (machineIDOnly "abc123\n") []
    "abc123\n").1 (by decide) (by decide)
  rw [h]
  exact ⟨by decide, rfl⟩

theorem getValueFromFileContents_cases (p : OS) (fg : factGatheringParams) (r : Runner)
    (log : List String) (hfg : fg.paramName = "MachineID" ∨ fg.paramName = "SystemUUID") :
    (∀ e, (r log fg.readFileCmd).2 = some e →
      p.getValueFromFileContents fg r log =
        ((p, some (.other fg.cmdErr)), log ++ [fg.readFileCmd])) ∧
    ((r log fg.readFileCmd).2 = none → strings.TrimSpace (r log fg.readFileCmd).1 = "" →
      p.getValueFromFileContents fg r log =
        ((p, some (.other fg.blankErr)), log ++ [fg.readFileCmd])) ∧
    ((r log fg.readFileCmd).2 = none → strings.TrimSpace (r log fg.readFileCmd).1 ≠ "" →
      p.getValueFromFileContents fg r log =
        (((p.SetField fg.paramName (strings.TrimSpace (r log fg.readFileCmd).1)).1, none),
          log ++ [fg.readFileCmd])) := by
  refine ⟨?_, ?_, ?_⟩
  · intro e he
    simp [OS.getValueFromFileContents, RunCommand, he]
  · intro he hb
    simp [OS.getValueFromFileContents, RunCommand, he, hb]
  · intro he hb
    have hl : ¬ (strings.TrimSpace (r log fg.readFileCmd).1).length = 0 :=
      fun h0 => hb ((length_eq_zero_iff _).1 h0)
    rcases hfg with h | h <;>
      simp [OS.getValueFromFileContents, RunCommand, he, hl, h, OS.SetField]

theorem getValueFromFileContents_unchanged (p : OS) (fg : factGatheringParams) (r : Runner)
    (log : List String) (hfg : fg.paramName = "MachineID" ∨ fg.paramName = "SystemUUID")
    (e : Error) (he : (p.getValueFromFileContents fg r log).1.2 = some e) :
    (p.getValueFromFileContents fg r log).1.1 = p := by
  obtain ⟨c1, c2, c3⟩ := getValueFromFileContents_cases p fg r log hfg
  rcases ha : (r log fg.readFileCmd).2 with _ | e2
  · by_cases hb : strings.TrimSpace (r log fg.readFileCmd).1 = ""
    · rw [c2 ha hb]
    · rw [c3 ha hb] at he
      simp at he
  · rw [c1 e2 ha]

theorem messages_differ (name : String) (fnames : List String) :
    (newFactGatheringParams name fnames).cmdErr ≠ (newFactGatheringParams name fnames).blankErr := by
  intro h
  have hl := congrArg String.length h
  simp only [newFactGatheringParams, String.length_append] at hl
  have h1 : "Could not get ".length = 14 := by decide
  have h2 : " is blank".length = 9 := by decide
  omega

/-- C12: for the MachineID and the SystemUUID parameters,
`getValueFromFileContents` fails exactly when the Runner returns an error or
the trimmed output is empty; the error is `Could not get <name>` in the first
case and `<name> is blank` in the second, the two messages differ for every
name, the `OS` is left unchanged in both cases, and `QueryState` returns
`EmptyState` whenever it returns an error. -/
theorem gathering_failure (p : OS) (r : Runner) (log : List String)
    (fg : factGatheringParams) (hfg : fg = machineIDParams ∨ fg = sysUUIDParams) :
    ((p.getValueFromFileContents fg r log).1.2 ≠ none ↔
      ((r log fg.readFileCmd).2 ≠ none ∨ strings.TrimSpace (r log fg.readFileCmd).1 = "")) ∧
    ((r log fg.readFileCmd).2 ≠ none →
      (p.getValueFromFileContents fg r log).1 =
        (p, some (.other ("Could not get " ++ fg.paramName)))) ∧
    ((r log fg.readFileCmd).2 = none → strings.TrimSpace (r log fg.readFileCmd).1 = "" →
      (p.getValueFromFileContents fg r log).1 =
        (p, some (.other (fg.paramName ++ " is blank")))) ∧
    (∀ name fnames, (newFactGatheringParams name fnames).cmdErr ≠
      (newFactGatheringParams name fnames).blankErr) ∧
    (∀ q : OS, (q.QueryState r log).1.2.2 ≠ none → (q.QueryState r log).1.2.1 = EmptyState) ∧
    (∀ e, (getMachineID p r log).1.2 = some e →
      (p.QueryState r log).1 = (p, EmptyState, some e)) ∧
    (∀ p1 log1 e, getMachineID p r log = ((p1, none), log1) →
      (getSystemUUID p1 r log1).1.2 = some e →
      (p.QueryState r log).1 = (p1, EmptyState, some e) ∧ p1.SystemUUID = p.SystemUUID) := by
  have hname : fg.paramName = "MachineID" ∨ fg.paramName = "SystemUUID" := by
    rcases hfg with h | h <;> subst h
    · exact Or.inl rfl
    · exact Or.inr rfl
  have hcmd : fg.cmdErr = "Could not get " ++ fg.paramName := by
    rcases hfg with h | h <;> subst h <;> rfl
  have hblank : fg.blankErr = fg.paramName ++ " is blank" := by
    rcases hfg with h | h <;> subst h <;> rfl
  obtain ⟨c1, c2, c3⟩ := getValueFromFileContents_cases p fg r log hname
  refine ⟨?_, ?_, ?_, messages_differ, ?_, ?_, ?_⟩
  · rcases he : (r log fg.readFileCmd).2 with _ | e
    · by_cases hb : strings.TrimSpace (r log fg.readFileCmd).1 = ""
      · rw [c2 he hb]
        simp [hb]
      · rw [c3 he hb]
        simp [hb]
    · rw [c1 e he]
      simp
  · intro he
    rcases he2 : (r log fg.readFileCmd).2 with _ | e
    · exact absurd he2 he
    · rw [c1 e he2, hcmd]
  · intro he hb
    rw [c2 he hb, hblank]
  · intro q hq
    unfold OS.QueryState at hq ⊢
    rcases hres : q.query r log with ⟨⟨q1, _ | e⟩, l1⟩
    · rw [hres] at hq
      exact absurd rfl hq
    · rfl
  · intro e he
    have hu := getValueFromFileContents_unchanged p machineIDParams r log (Or.inl rfl) e he
    unfold OS.QueryState OS.query OS.gatherFacts gatherFuncs gatherLoop
    change (p.getValueFromFileContents machineIDParams r log).1.2 = some e at he
    rcases hres : getMachineID p r log with ⟨⟨q1, _ | e2⟩, l1⟩
    · rw [show p.getValueFromFileContents machineIDParams r log = getMachineID p r log from rfl,
        hres] at he
      exact absurd he (by simp)
    · rw [show p.getValueFromFileContents machineIDParams r log = getMachineID p r log from rfl,
        hres] at he hu
      simp only [Option.some.injEq] at he
      simp only at hu
      subst he
      subst hu
      rfl
  · intro p1 log1 e h1 h2
    have hu := getValueFromFileContents_unchanged p1 sysUUIDParams r log1 (Or.inr rfl) e h2
    have hs : p1.SystemUUID = p.SystemUUID := by
      have hm := getValueFromFileContents_cases p machineIDParams r log (Or.inl rfl)
      have h1b : p.getValueFromFileContents machineIDParams r log = ((p1, none), log1) := h1
      rcases he : (r log machineIDParams.readFileCmd).2 with _ | e3
      · by_cases hb : strings.TrimSpace (r log machineIDParams.readFileCmd).1 = ""
        · rw [hm.2.1 he hb] at h1b
          simp at h1b
        · rw [hm.2.2 he hb] at h1b
          have hp1 := congrArg (fun x => x.1.1) h1b
          simp only at hp1
          rw [← hp1]
          rfl
      · rw [hm.1 e3 he] at h1b
        simp at h1b
    refine ⟨?_, hs⟩
    unfold OS.QueryState OS.query OS.gatherFacts gatherFuncs gatherLoop
    rw [h1]
    simp only
    unfold gatherLoop
    rcases hres : getSystemUUID p1 r log1 with ⟨⟨q1, _ | e2⟩, l1⟩
    · rw [hres] at h2
      exact absurd h2 (by simp)
    · rw [show p1.getValueFromFileContents sysUUIDParams r log1 = getSystemUUID p1 r log1
        from rfl, hres] at hu
      rw [hres] at h2
      simp only [Option.some.injEq] at h2
      simp only at hu
      subst h2
      subst hu
      rfl

/-- Witness of C12: on a Runner whose every command exits with code 1 the
MachineID is not read, the error says so, and the `OS` is unchanged. -/
theorem gathering_failure_witness :
    ((OS.mk "id" "uuid" (alwaysSucceed "")).getValueFromFileContents machineIDParams
        (alwaysExit 1) []).1 =
      (OS.mk "id" "uuid" (alwaysSucceed ""), some (.other "Could not get MachineID")) :=
  ((gathering_failure (OS.mk "id" "uuid" (alwaysSucceed "")) (alwaysExit 1) [] machineIDParams
    (Or.inl rfl)).2.1 (by decide)).trans
    (congrArg (fun m => (OS.mk "id" "uuid" (alwaysSucceed ""), some (Error.other m)))
      (by decide))

/-- C13: `OS.Apply` issues the commands `QueryState` issues, leaves the `OS`
as `QueryState` leaves it, returns `changed = false` in every case, and
returns the error of the query, which is also the error of `QueryState`. -/
theorem OS_Apply_query_only (p : OS) (r : Runner) (log : List String) (diff : Diff) :
    (p.Apply r log diff).2 = (p.QueryState r log).2 ∧
    (p.Apply r log diff).1.1 = (p.QueryState r log).1.1 ∧
    (p.Apply r log diff).1.2.1 = false ∧
    (p.Apply r log diff).1.2.2 = (p.query r log).1.2 ∧
    (p.Apply r log diff).1.2.2 = (p.QueryState r log).1.2.2 := by
  unfold OS.Apply OS.QueryState
  rcases p.query r log with ⟨⟨q1, _ | e⟩, l1⟩ <;> exact ⟨rfl, rfl, rfl, rfl, rfl⟩

theorem join_suffix (a : String) (rest : List String) (suffix sep : String) :
    strings.Join ((a :: rest).map (fun x => x ++ suffix)) sep =
      strings.Join (a :: rest) (suffix ++ sep) ++ suffix := by
  induction rest generalizing a with
  | nil => rfl
  | cons b rest ih =>
    have h := ih b
    simp only [List.map_cons] at h ⊢
    simp only [strings.Join]
    rw [h]
    simp only [String.append_assoc]

/-- C19: for every non-empty list of candidates, `readFileCommand` returns the
commands `cat <candidate> 2>/dev/null`, one per candidate in the given order,
joined by ` || `; for one candidate and for two this is written out, and the
MachineID command is the chain over its two candidate files. -/
theorem readFileCommand_chain (f : String) (fnames : List String) :
    readFileCommand (f :: fnames) =
      strings.Join ((f :: fnames).map (fun x => "cat " ++ x ++ " 2>/dev/null")) " || " ∧
    readFileCommand [f] = "cat " ++ f ++ " 2>/dev/null" ∧
    (∀ g, readFileCommand [f, g] =
      "cat " ++ f ++ " 2>/dev/null || cat " ++ g ++ " 2>/dev/null") ∧
    machineIDParams.readFileCmd =
      "cat /etc/machine-id 2>/dev/null || cat /var/lib/dbus/machine-id 2>/dev/null" := by
  have hsep : " 2>/dev/null || " = " 2>/dev/null" ++ " || " := by decide
  refine ⟨?_, rfl, ?_, machineID_readFileCmd⟩
  · have h := join_suffix ("cat " ++ f) (fnames.map (fun x => "cat " ++ x)) " 2>/dev/null" " || "
    simp only [List.map_cons, List.map_map] at h ⊢
    unfold readFileCommand
    simp only [List.map_cons]
    rw [hsep]
    exact h.symm
  · intro g
    have hsep2 : " 2>/dev/null || cat " = " 2>/dev/null || " ++ "cat " := by decide
    simp only [readFileCommand, List.map_cons, List.map_nil, strings.Join, hsep2,
      String.append_assoc]

/-! ## Properties of the Run resource -/

/-- C14: for every Diff, `Run.Apply` issues the script to the Runner once;
`changed` is true exactly when the Runner returns no error, in which case the
error is nil, and otherwise `changed` is false and the error wraps the
Runner's error; an output slot that is set receives the Runner's output and
the other fields are kept; a second `Apply` issues the script a second
time. -/
theorem Run_Apply_always_executes
    (pkgApply : Resource → Runner → List String → Diff →
      (Resource × Bool × Option Error) × List String)
    (script : String) (undoScript : Option String) (undoResource : Option Resource)
    (output : Option String) (runner : Runner) (log : List String) (diff diff2 : Diff) :
    (Resource.Apply pkgApply (.Run script undoScript undoResource output) runner log diff).2 =
      log ++ [script] ∧
    ((Resource.Apply pkgApply (.Run script undoScript undoResource output) runner log
        diff).1.2.1 = true ↔ (runner log script).2 = none) ∧
    ((runner log script).2 = none →
      (Resource.Apply pkgApply (.Run script undoScript undoResource output) runner log
        diff).1.2.2 = none) ∧
    (∀ e, (runner log script).2 = some e →
      (Resource.Apply pkgApply (.Run script undoScript undoResource output) runner log
        diff).1.2 = (false, some (.wrap e.toError (runner log script).1))) ∧
    (Resource.Apply pkgApply (.Run script undoScript undoResource output) runner log diff).1.1 =
      .Run script undoScript undoResource (output.map (fun _ => (runner log script).1)) ∧
    (Resource.Apply pkgApply
      (Resource.Apply pkgApply (.Run script undoScript undoResource output) runner log diff).1.1
      runner
      (Resource.Apply pkgApply (.Run script undoScript undoResource output) runner log diff).2
      diff2).2 = log ++ [script, script] := by
  rcases he : (runner log script).2 with _ | e <;> cases output <;>
    rcases he2 : (runner (log ++ [script]) script).2 with _ | e2 <;>
    simp [Resource.Apply, RunCommand, he, he2]

/-- C15: `Run.Undo` with an undo script runs that script and returns the
Runner's error, whether or not an undo Resource is set; without an undo script
and with an undo Resource it is that Resource's `Undo` on the same Runner with
`EmptyState`; with neither it issues no command and returns nil. -/
theorem Run_Undo_preference
    (pkgUndo : Resource → Runner → List String → State → Option Error × List String)
    (script : String) (output : Option String) (runner : Runner) (log : List String)
    (current : State) :
    (∀ (u : String) (undoResource : Option Resource),
      Resource.Undo pkgUndo (.Run script (some u) undoResource output) runner log current =
        ((runner log u).2.map RunnerError.toError, log ++ [u])) ∧
    (∀ rsc : Resource,
      Resource.Undo pkgUndo (.Run script none (some rsc) output) runner log current =
        Resource.Undo pkgUndo rsc runner log EmptyState) ∧
    Resource.Undo pkgUndo (.Run script none none output) runner log current = (none, log) := by
  refine ⟨?_, ?_, ?_⟩
  · intro u undoResource
    simp [Resource.Undo, RunCommand]
  · intro rsc
    simp [Resource.Undo]
  · simp [Resource.Undo]

/-! ## Further properties of the upgrade plan -/

theorem upgradeScript_none (lessThan : String → String → Bool × Option Error)
    (k8sVersion : String) (ntype : NodeType)
    (hnt : ntype ≠ OriginalMaster ∧ ntype ≠ SecondaryMaster ∧ ntype ≠ Worker) :
    upgradeScript lessThan k8sVersion ntype = none := by
  simp [upgradeScript, hnt.1, hnt.2.1, hnt.2.2]

/-- C18: for the Deb family, each of the three node types and every version
`v`, `BuildUpgradePlan` registers without error the apt-mark unhold command,
the Deb packages kubelet, kubectl and kubeadm with suffix `=v-00`, the apt-mark
hold command, the role-specific upgrade command and the kubelet restart, in
this order; the last two are the sixth and seventh resources the RPM and the
RHEL family register for the same node type and version, and the plan returned
holds the seven resources in the same order. -/
theorem BuildUpgradePlan_deb (lessThan : String → String → Bool × Option Error)
    (v : String) (ntype : NodeType)
    (hnt : ntype = OriginalMaster ∨ ntype = SecondaryMaster ∨ ntype = Worker) :
    ∃ s, upgradeScript lessThan v ntype = some s ∧
      (upgradeBuilder lessThan PkgTypeDeb v ntype).errors = [] ∧
      (upgradeBuilder lessThan PkgTypeDeb v ntype).entries.map (fun e => e.resource) =
        [Resource.Run "apt-mark unhold 'kube*' || true" none none none,
         Resource.Deb "kubelet" ("=" ++ v ++ "-00"),
         Resource.Deb "kubectl" ("=" ++ v ++ "-00"),
         Resource.Deb "kubeadm" ("=" ++ v ++ "-00"),
         Resource.Run "apt-mark hold 'kube*' || true" none none none,
         Resource.Run s none none none,
         Resource.Run "systemctl restart kubelet" none none none] ∧
      ((upgradeBuilder lessThan PkgTypeRPM v ntype).entries.map (fun e => e.resource)).drop 5 =
        [Resource.Run s none none none,
         Resource.Run "systemctl restart kubelet" none none none] ∧
      ((upgradeBuilder lessThan PkgTypeRHEL v ntype).entries.map (fun e => e.resource)).drop 5 =
        [Resource.Run s none none none,
         Resource.Run "systemctl restart kubelet" none none none] ∧
      ∃ p, BuildUpgradePlan lessThan PkgTypeDeb v ntype = .ok p ∧
        p.nodes.map (fun e => e.resource) =
          (upgradeBuilder lessThan PkgTypeDeb v ntype).entries.map (fun e => e.resource) := by
  obtain ⟨s, hs⟩ := upgradeScript_isSome lessThan v ntype hnt
  refine ⟨s, hs, ?_, ?_, ?_, ?_, _, BuildUpgradePlan_of_script lessThan PkgTypeDeb v ntype s
    (Or.inr (Or.inr rfl)) hs, ?_⟩
  · simp [upgradeBuilder, addUpgradeStep, hs, addRestartStep, addPackageSteps, NewBuilder,
      Builder.AddResource]
  · simp [upgradeBuilder, addUpgradeStep, hs, addRestartStep, addPackageSteps, NewBuilder,
      Builder.AddResource, Resource.script]
  · simp [upgradeBuilder, addUpgradeStep, hs, addRestartStep, addPackageSteps, NewBuilder,
      Builder.AddResource, Resource.script]
  · simp [upgradeBuilder, addUpgradeStep, hs, addRestartStep, addPackageSteps, NewBuilder,
      Builder.AddResource, Resource.script]
  · simp only [upgradeBuilder, addUpgradeStep, hs]

/-- Witness of C18: the Deb registration of a worker for `v1.15.3`. -/
theorem BuildUpgradePlan_deb_witness :
    (upgradeBuilder version.LessThan PkgTypeDeb "v1.15.3" Worker).entries.map
        (fun e => e.resource) =
      [Resource.Run "apt-mark unhold 'kube*' || true" none none none,
       Resource.Deb "kubelet" "=v1.15.3-00",
       Resource.Deb "kubectl" "=v1.15.3-00",
       Resource.Deb "kubeadm" "=v1.15.3-00",
       Resource.Run "apt-mark hold 'kube*' || true" none none none,
       Resource.Run "kubeadm upgrade node phase kubelet-config" none none none,
       Resource.Run "systemctl restart kubelet" none none none] := by
  obtain ⟨s, hs, -, h, -⟩ :=
    BuildUpgradePlan_deb version.LessThan "v1.15.3" Worker (Or.inr (Or.inr rfl))
  have hw : upgradeScript version.LessThan "v1.15.3" Worker =
      some "kubeadm upgrade node phase kubelet-config" := rfl
  rw [hw] at hs
  simp only [Option.some.injEq] at hs
  subst hs
  have hsuffix : "=" ++ "v1.15.3" ++ "-00" = "=v1.15.3-00" := by decide
  rw [h, hsuffix]

/-- C20 (counterexample): for a package type and a node type that are both
unsupported, `BuildUpgradePlan` registers nothing, so no dependency is
unknown, and it returns the empty plan. -/
theorem BuildUpgradePlan_empty_plan :
    (upgradeBuilder version.LessThan (PkgType.other "apk") "v1.15.3" 3).entries = [] ∧
    unknownDependencies
      (upgradeBuilder version.LessThan (PkgType.other "apk") "v1.15.3" 3).entries = [] ∧
    ∃ p, BuildUpgradePlan version.LessThan (PkgType.other "apk") "v1.15.3" 3 = .ok p ∧
      p.nodes = [] :=
  ⟨rfl, rfl, _, rfl, rfl⟩

/-- C20 (as amended): with an unsupported package type and one of the three
node types, the upgrade step names the unregistered dependency
`upgrade:node-install-kubeadm` and the build returns an error; with a
supported package type and an unsupported node type, the restart step names
the unregistered dependency `upgrade:node-kubeadm-upgrade` and the build
returns an error; with both unsupported nothing is registered and the empty
plan is returned; for every supported pair exactly seven uniquely named
resources are registered without error and every dependency is registered. -/
theorem BuildUpgradePlan_unsupported (lessThan : String → String → Bool × Option Error)
    (v : String) (pkgType : PkgType) (ntype : NodeType) :
    ((∃ tag, pkgType = PkgType.other tag) →
      (ntype = OriginalMaster ∨ ntype = SecondaryMaster ∨ ntype = Worker) →
      "upgrade:node-install-kubeadm" ∈
        unknownDependencies (upgradeBuilder lessThan pkgType v ntype).entries ∧
      ∃ msg, BuildUpgradePlan lessThan pkgType v ntype = .error msg) ∧
    ((pkgType = PkgTypeRPM ∨ pkgType = PkgTypeRHEL ∨ pkgType = PkgTypeDeb) →
      (ntype ≠ OriginalMaster ∧ ntype ≠ SecondaryMaster ∧ ntype ≠ Worker) →
      "upgrade:node-kubeadm-upgrade" ∈
        unknownDependencies (upgradeBuilder lessThan pkgType v ntype).entries ∧
      ∃ msg, BuildUpgradePlan lessThan pkgType v ntype = .error msg) ∧
    ((∃ tag, pkgType = PkgType.other tag) →
      (ntype ≠ OriginalMaster ∧ ntype ≠ SecondaryMaster ∧ ntype ≠ Worker) →
      (upgradeBuilder lessThan pkgType v ntype).entries = [] ∧
      BuildUpgradePlan lessThan pkgType v ntype = .ok ⟨[]⟩) ∧
    ((pkgType = PkgTypeRPM ∨ pkgType = PkgTypeRHEL ∨ pkgType = PkgTypeDeb) →
      (ntype = OriginalMaster ∨ ntype = SecondaryMaster ∨ ntype = Worker) →
      (upgradeBuilder lessThan pkgType v ntype).errors = [] ∧
      (upgradeBuilder lessThan pkgType v ntype).entries.length = 7 ∧
      ((upgradeBuilder lessThan pkgType v ntype).entries.map (fun e => e.name)).Nodup ∧
      unknownDependencies (upgradeBuilder lessThan pkgType v ntype).entries = []) := by
  refine ⟨?_, ?_, ?_, ?_⟩
  · rintro ⟨tag, rfl⟩ hnt
    obtain ⟨s, hs⟩ := upgradeScript_isSome lessThan v ntype hnt
    simp [BuildUpgradePlan, upgradeBuilder, addUpgradeStep, hs, addRestartStep, addPackageSteps,
      NewBuilder, Builder.AddResource, Builder.Plan, unknownDependencies]
  · intro hpkg hnt
    have hs := upgradeScript_none lessThan v ntype hnt
    rcases hpkg with h | h | h <;> subst h <;>
      simp [BuildUpgradePlan, upgradeBuilder, addUpgradeStep, hs, addRestartStep,
        addPackageSteps, NewBuilder, Builder.AddResource, Builder.Plan, unknownDependencies]
  · rintro ⟨tag, rfl⟩ hnt
    have hs := upgradeScript_none lessThan v ntype hnt
    simp [BuildUpgradePlan, upgradeBuilder, addUpgradeStep, hs, addRestartStep,
      addPackageSteps, NewBuilder, Builder.Plan, unknownDependencies, topoSort]
  · intro hpkg hnt
    obtain ⟨s, hs⟩ := upgradeScript_isSome lessThan v ntype hnt
    rcases hpkg with h | h | h <;> subst h <;>
      simp [upgradeBuilder, addUpgradeStep, hs, addRestartStep, addPackageSteps, NewBuilder,
        Builder.AddResource, unknownDependencies]

/-- Witness of C20 (as amended): an unsupported package type with a worker,
and the RPM family with an unsupported node type. -/
theorem BuildUpgradePlan_unsupported_witness :
    (∃ msg, BuildUpgradePlan version.LessThan (PkgType.other "apk") "v1.15.3" Worker =
      .error msg) ∧
    (∃ msg, BuildUpgradePlan version.LessThan PkgTypeRPM "v1.15.3" 3 = .error msg) :=
  ⟨((BuildUpgradePlan_unsupported version.LessThan "v1.15.3" (PkgType.other "apk") Worker).1
      ⟨"apk", rfl⟩ (Or.inr (Or.inr rfl))).2,
   ((BuildUpgradePlan_unsupported version.LessThan "v1.15.3" PkgTypeRPM 3).2.1
      (Or.inl rfl) ⟨by decide, by decide, by decide⟩).2⟩

/-! ## Properties of the reconciler -/

/-- C16 (the failing input): on a store holding an object without the creation
marker, `setClusterAnnotation` returns nil after writing back the object as it
was read; the marker is set on the caller's object only, the stored object
still lacks it, and a second `Reconcile` on the same store runs the
initialization a second time. -/
theorem setClusterAnnotation_marker_not_written :
    setClusterAnnotation (storeEnv applied none) [] applied Creating "true" =
      ((appliedMarked, .returned none), [.Get ⟨"", "cluster-1"⟩, .Update applied]) ∧
    mapLookup applied.Annotations "wks.weave.works/is-creating" = none ∧
    mapLookup (storedObject applied [.Get ⟨"", "cluster-1"⟩, .Update applied]).Annotations
      "wks.weave.works/is-creating" = none ∧
    initializations
      (Reconcile (storeEnv applied (some ⟨"cluster-1", false⟩))
        (Reconcile (storeEnv applied (some ⟨"cluster-1", false⟩)) [] ⟨"default", "cluster-1"⟩).2
        ⟨"default", "cluster-1"⟩).2 = 2 := by
  decide

/-- C17 (the failing input): for an object without the creation marker whose
owning Cluster is paused, `Reconcile` reads the object, issues the marker
write, runs `setupGitDir` and `setupInitialWorkloadCluster`, and only then
looks up the owning Cluster and returns nil without a patch. -/
theorem Reconcile_paused_initializes :
    IsPaused ⟨"cluster-1", true⟩ applied = true ∧
    (Reconcile (storeEnv applied (some ⟨"cluster-1", true⟩)) [] ⟨"default", "cluster-1"⟩).1.2 =
      .returned none ∧
    (Reconcile (storeEnv applied (some ⟨"cluster-1", true⟩)) [] ⟨"default", "cluster-1"⟩).1.1.Ready =
      false ∧
    (Reconcile (storeEnv applied (some ⟨"cluster-1", true⟩)) [] ⟨"default", "cluster-1"⟩).2 =
      [.Get ⟨"default", "cluster-1"⟩,
       .Get ⟨"", "cluster-1"⟩,
       .Update applied,
       .setupGitDir appliedMarked,
       .setupInitialWorkloadCluster appliedMarked,
       .GetOwnerCluster appliedMarked] := by
  decide

/-! ## Order of fact gathering -/

theorem gatherFacts_unfold (p : OS) (r : Runner) (log : List String) :
    p.gatherFacts r log =
      match p.getValueFromFileContents machineIDParams r log with
      | ((p1, some err), log1) => ((p1, some err), log1)
      | ((p1, none), log1) =>
        match p1.getValueFromFileContents sysUUIDParams r log1 with
        | ((p2, some err), log2) => ((p2, some err), log2)
        | ((p2, none), log2) => ((p2, none), log2) := by
  unfold OS.gatherFacts gatherFuncs gatherLoop getMachineID
  rcases p.getValueFromFileContents machineIDParams r log with ⟨⟨p1, _ | e⟩, log1⟩
  · simp only
    unfold gatherLoop getSystemUUID
    rcases p1.getValueFromFileContents sysUUIDParams r log1 with ⟨⟨p2, _ | e2⟩, log2⟩
    · simp only [gatherLoop]
    · simp only
  · simp only

/-- C21: `gatherFacts` issues the MachineID read command first; when that
probe fails, by an error of the Runner or by a blank output, the SystemUUID
command is not issued, the `OS` is unchanged and the MachineID error is
returned; when the MachineID probe succeeds and the SystemUUID probe fails,
the SystemUUID error is returned while `MachineID` already holds the new
trimmed value and `SystemUUID` keeps its previous value. -/
theorem gatherFacts_ordered_fail_fast (p : OS) (r : Runner) (log : List String) :
    (∃ rest, (p.gatherFacts r log).2 =
        log ++ "cat /etc/machine-id 2>/dev/null || cat /var/lib/dbus/machine-id 2>/dev/null" ::
          rest ∧
      (rest = [] ∨ rest =
        ["cat /sys/class/dmi/id/product_uuid 2>/dev/null || cat /etc/machine-id 2>/dev/null"])) ∧
    (((r log "cat /etc/machine-id 2>/dev/null || cat /var/lib/dbus/machine-id 2>/dev/null").2 ≠
          none ∨
        strings.TrimSpace
          (r log "cat /etc/machine-id 2>/dev/null || cat /var/lib/dbus/machine-id 2>/dev/null").1 =
          "") →
      ∃ e, (e = Error.other "Could not get MachineID" ∨ e = Error.other "MachineID is blank") ∧
        p.gatherFacts r log =
          ((p, some e),
            log ++ ["cat /etc/machine-id 2>/dev/null || cat /var/lib/dbus/machine-id 2>/dev/null"])) ∧
    (∀ out, r log "cat /etc/machine-id 2>/dev/null || cat /var/lib/dbus/machine-id 2>/dev/null" =
        (out, none) → strings.TrimSpace out ≠ "" →
      ((r (log ++ ["cat /etc/machine-id 2>/dev/null || cat /var/lib/dbus/machine-id 2>/dev/null"])
          "cat /sys/class/dmi/id/product_uuid 2>/dev/null || cat /etc/machine-id 2>/dev/null").2 ≠
          none ∨
        strings.TrimSpace
          (r (log ++ ["cat /etc/machine-id 2>/dev/null || cat /var/lib/dbus/machine-id 2>/dev/null"])
            "cat /sys/class/dmi/id/product_uuid 2>/dev/null || cat /etc/machine-id 2>/dev/null").1 =
          "") →
      ∃ e, (e = Error.other "Could not get SystemUUID" ∨ e = Error.other "SystemUUID is blank") ∧
        p.gatherFacts r log =
          (({ p with MachineID := strings.TrimSpace out }, some e),
            log ++ ["cat /etc/machine-id 2>/dev/null || cat /var/lib/dbus/machine-id 2>/dev/null",
              "cat /sys/class/dmi/id/product_uuid 2>/dev/null || cat /etc/machine-id 2>/dev/null"])) := by
  have hcm : machineIDParams.cmdErr = "Could not get MachineID" := by decide
  have hbm : machineIDParams.blankErr = "MachineID is blank" := by decide
  have hcu : sysUUIDParams.cmdErr = "Could not get SystemUUID" := by decide
  have hbu : sysUUIDParams.blankErr = "SystemUUID is blank" := by decide
  have hnm : machineIDParams.paramName = "MachineID" := rfl
  have hset : ∀ v : String, (p.SetField "MachineID" v).1 = { p with MachineID := v } := by
    intro v
    simp [OS.SetField]
  obtain ⟨m1, m2, m3⟩ := getValueFromFileContents_cases p machineIDParams r log (Or.inl rfl)
  rw [machineID_readFileCmd, hcm] at m1
  rw [machineID_readFileCmd, hbm] at m2
  rw [machineID_readFileCmd, hnm] at m3
  have hu : ∀ q : OS,
      ((r (log ++ ["cat /etc/machine-id 2>/dev/null || cat /var/lib/dbus/machine-id 2>/dev/null"])
          "cat /sys/class/dmi/id/product_uuid 2>/dev/null || cat /etc/machine-id 2>/dev/null").2 ≠
          none ∨
        strings.TrimSpace
          (r (log ++ ["cat /etc/machine-id 2>/dev/null || cat /var/lib/dbus/machine-id 2>/dev/null"])
            "cat /sys/class/dmi/id/product_uuid 2>/dev/null || cat /etc/machine-id 2>/dev/null").1 =
          "") →
      ∃ e, (e = Error.other "Could not get SystemUUID" ∨ e = Error.other "SystemUUID is blank") ∧
        q.getValueFromFileContents sysUUIDParams r
          (log ++ ["cat /etc/machine-id 2>/dev/null || cat /var/lib/dbus/machine-id 2>/dev/null"]) =
          ((q, some e),
            log ++ ["cat /etc/machine-id 2>/dev/null || cat /var/lib/dbus/machine-id 2>/dev/null",
              "cat /sys/class/dmi/id/product_uuid 2>/dev/null || cat /etc/machine-id 2>/dev/null"]) := by
    intro q hfail
    obtain ⟨u1, u2, -⟩ := getValueFromFileContents_cases q sysUUIDParams r
      (log ++ ["cat /etc/machine-id 2>/dev/null || cat /var/lib/dbus/machine-id 2>/dev/null"])
      (Or.inr rfl)
    rw [sysUUID_readFileCmd, hcu] at u1
    rw [sysUUID_readFileCmd, hbu] at u2
    rcases ha : (r (log ++
        ["cat /etc/machine-id 2>/dev/null || cat /var/lib/dbus/machine-id 2>/dev/null"])
        "cat /sys/class/dmi/id/product_uuid 2>/dev/null || cat /etc/machine-id 2>/dev/null").2
      with _ | e2
    · rcases hfail with h | h
      · exact absurd ha h
      · refine ⟨_, Or.inr rfl, ?_⟩
        rw [u2 ha h]
        simp
    · refine ⟨_, Or.inl rfl, ?_⟩
      rw [u1 e2 ha]
      simp
  have hulog : ∀ q : OS, (q.getValueFromFileContents sysUUIDParams r
      (log ++ ["cat /etc/machine-id 2>/dev/null || cat /var/lib/dbus/machine-id 2>/dev/null"])).2 =
      log ++ ["cat /etc/machine-id 2>/dev/null || cat /var/lib/dbus/machine-id 2>/dev/null",
        "cat /sys/class/dmi/id/product_uuid 2>/dev/null || cat /etc/machine-id 2>/dev/null"] := by
    intro q
    simp only [OS.getValueFromFileContents, RunCommand, sysUUID_readFileCmd]
    split <;> [skip; split] <;> simp
  refine ⟨?_, ?_, ?_⟩
  · rw [gatherFacts_unfold]
    rcases ha : (r log
        "cat /etc/machine-id 2>/dev/null || cat /var/lib/dbus/machine-id 2>/dev/null").2
      with _ | e1
    · by_cases hb : strings.TrimSpace (r log
          "cat /etc/machine-id 2>/dev/null || cat /var/lib/dbus/machine-id 2>/dev/null").1 = ""
      · rw [m2 ha hb]
        exact ⟨[], rfl, Or.inl rfl⟩
      · rw [m3 ha hb]
        simp only
        refine ⟨_, ?_, Or.inr rfl⟩
        have hl := hulog (p.SetField "MachineID" (strings.TrimSpace (r log
          "cat /etc/machine-id 2>/dev/null || cat /var/lib/dbus/machine-id 2>/dev/null").1)).1
        rcases hres : (p.SetField "MachineID" (strings.TrimSpace (r log
          "cat /etc/machine-id 2>/dev/null || cat /var/lib/dbus/machine-id 2>/dev/null").1)).1
          |>.getValueFromFileContents sysUUIDParams r (log ++
          ["cat /etc/machine-id 2>/dev/null || cat /var/lib/dbus/machine-id 2>/dev/null"])
          with ⟨⟨p2, _ | e2⟩, log2⟩ <;>
        · rw [hres] at hl
          simp only at hl ⊢
          rw [hl]
    · rw [m1 e1 ha]
      exact ⟨[], rfl, Or.inl rfl⟩
  · intro hfail
    rw [gatherFacts_unfold]
    rcases ha : (r log
        "cat /etc/machine-id 2>/dev/null || cat /var/lib/dbus/machine-id 2>/dev/null").2
      with _ | e1
    · rcases hfail with h | h
      · exact absurd ha h
      · rw [m2 ha h]
        exact ⟨_, Or.inr rfl, rfl⟩
    · rw [m1 e1 ha]
      exact ⟨_, Or.inl rfl, rfl⟩
  · intro out hout hne hfail
    have ha : (r log
        "cat /etc/machine-id 2>/dev/null || cat /var/lib/dbus/machine-id 2>/dev/null").2 = none := by
      rw [hout]
    have hb : strings.TrimSpace (r log
        "cat /etc/machine-id 2>/dev/null || cat /var/lib/dbus/machine-id 2>/dev/null").1 ≠ "" := by
      rw [hout]
      exact hne
    obtain ⟨e, he, hres⟩ := hu { p with MachineID := strings.TrimSpace out } hfail
    refine ⟨e, he, ?_⟩
    rw [gatherFacts_unfold, m3 ha hb, hset, hout]
    simp only
    rw [hres]

/-- Witness of C21: on a Runner that answers only the MachineID command, with
`abc123` and a newline, `gatherFacts` returns the SystemUUID error after both
commands, `MachineID` is `abc123` and `SystemUUID` is as before. -/
theorem gatherFacts_ordered_fail_fast_witness :
    ((OS.mk "old-id" "old-uuid" (alwaysSucceed "")).gatherFacts (machineIDOnly "abc123\n") []).2 =
      ["cat /etc/machine-id 2>/dev/null || cat /var/lib/dbus/machine-id 2>/dev/null",
       "cat /sys/class/dmi/id/product_uuid 2>/dev/null || cat /etc/machine-id 2>/dev/null"] ∧
    ((OS.mk "old-id" "old-uuid" (alwaysSucceed "")).gatherFacts (machineIDOnly "abc123\n")
      []).1.2 = some (.other "Could not get SystemUUID") ∧
    ((OS.mk "old-id" "old-uuid" (alwaysSucceed "")).gatherFacts (machineIDOnly "abc123\n")
      []).1.1.MachineID = "abc123" ∧
    ((OS.mk "old-id" "old-uuid" (alwaysSucceed "")).gatherFacts (machineIDOnly "abc123\n")
      []).1.1.SystemUUID = "old-uuid" := by
  obtain ⟨e, he, h⟩ := (gatherFacts_ordered_fail_fast (OS.mk "old-id" "old-uuid" (alwaysSucceed ""))
    (machineIDOnly "abc123\n") []).2.2 "abc123\n" (by decide) (by decide) (Or.inl (by decide))
  have he2 : (OS.mk "old-id" "old-uuid" (alwaysSucceed "")).gatherFacts (machineIDOnly "abc123\n")
      [] = ((OS.mk "abc123" "old-uuid" (alwaysSucceed ""),
        some (.other "Could not get SystemUUID")),
      ["cat /etc/machine-id 2>/dev/null || cat /var/lib/dbus/machine-id 2>/dev/null",
       "cat /sys/class/dmi/id/product_uuid 2>/dev/null || cat /etc/machine-id 2>/dev/null"]) := by
    rw [h]
    have hlog := congrArg (fun x => x.1.2) h
    have hdirect : ((OS.mk "old-id" "old-uuid" (alwaysSucceed "")).gatherFacts
        (machineIDOnly "abc123\n") []).1.2 = some (.other "Could not get SystemUUID") := by
      decide
    simp only at hlog
    rw [hdirect] at hlog
    rw [← hlog]
    have ht : strings.TrimSpace "abc123\n" = "abc123" := by decide
    rw [ht]
    rfl
  rw [he2]
  exact ⟨rfl, rfl, rfl, rfl⟩

end ExistingInfra
